import Mathlib

/-!
# CHIP-8 interpreter core (`CHIP8.cpp`, `CHIP8.hpp`)

A shallow embedding of the `chip8` class and of its member functions
`initialize` (here `init`, the source's name being a reserved word),
`getOpcode`, `runOpcode` and `emulateCycle`.

* The fixed-size C++ arrays (`key[16]`, `gfx[64 * 32]`, `memory[4096]`, `V[16]`,
  `stack[16]`) are total maps `Nat → Nat`; every array access in the source goes
  through a checked read or write that compares the index with the declared
  size.  An access outside the declared size is undefined behaviour in C++; the
  embedding stops there with a `Fault` naming the array, the index and, for a
  write, the value.
* `unsigned char` and `unsigned short` values are natural numbers; every store
  into such a variable reduces the (integer) value modulo `2^8` or `2^16`.
* `printf` output is collected in the field `out`; `rand()` reads the next
  element of the stream `randSeq`.
-/

/-- The arrays of the `chip8` class. -/
inductive Arr where
  | key
  | gfx
  | memory
  | V
  | stack
  deriving DecidableEq, Repr

/-- Undefined behaviour met while running the source: an array read, or
written with the value `v`, at an index `i` outside its declared bounds. -/
inductive Fault where
  | readOutOfBounds (a : Arr) (i : Nat)
  | writeOutOfBounds (a : Arr) (i : Nat) (v : Nat)
  deriving DecidableEq, Repr

/-- Lines written to standard output by `printf`. -/
inductive Msg where
  | unknownOpcode (op : Nat)
  | beep
  deriving DecidableEq, Repr

/-- Conversion of an integer value to `unsigned char`. -/
def u8 (z : Int) : Nat := (z % 256).toNat

/-- Conversion of an integer value to `unsigned short`. -/
def u16 (z : Int) : Nat := (z % 65536).toNat

/-- The data members of `class chip8` (`CHIP8.hpp`), with the output written so
far and the stream behind `rand()`. -/
structure chip8 where
  key : Nat → Nat
  gfx : Nat → Nat
  delayTimer : Nat
  soundTimer : Nat
  opcode : Nat
  memory : Nat → Nat
  V : Nat → Nat
  I : Nat
  PC : Nat
  stack : Nat → Nat
  sp : Nat
  drawFlag : Bool
  out : List Msg
  randSeq : Nat → Nat
  randCalls : Nat

/-- The initializer of `chip8Fontset[80]` in `CHIP8.hpp`. -/
def chip8Fontset : List Nat :=
  [0xF0, 0x90, 0x90, 0x90, 0xF0,
   0x20, 0x60, 0x20, 0x20, 0x70,
   0xF0, 0x10, 0xF0, 0x80, 0xF0,
   0xF0, 0x10, 0xF0, 0x10, 0xF0,
   0x90, 0x90, 0xF0, 0x10, 0x10,
   0xF0, 0x80, 0xF0, 0x10, 0xF0,
   0xF0, 0x80, 0xF0, 0x90, 0xF0,
   0xF0, 0x10, 0x20, 0x40, 0x40,
   0xF0, 0x90, 0xF0, 0x90, 0xF0,
   0xF0, 0x90, 0xF0, 0x10, 0xF0,
   0xF0, 0x90, 0xF0, 0x90, 0x90,
   0xE0, 0x90, 0xE0, 0x90, 0xE0,
   0xF0, 0x80, 0x80, 0x80, 0xF0,
   0xE0, 0x90, 0x90, 0x90, 0xE0,
   0xF0, 0x80, 0xF0, 0x80, 0xF0,
   0xF0, 0x80, 0xF0, 0x80, 0x80]

/-- The loop `for (int i = 0; i < n; i++) body`, threading the state and
stopping at the first fault. -/
def forLoop {σ : Type} (n : Nat) (body : Nat → σ → Except Fault σ) (s : σ) :
    Except Fault σ :=
  (List.range n).foldlM (fun acc i => body i acc) s

namespace chip8

/-- Read of `key[i]`, an array of 16 elements. -/
def rdKey (s : chip8) (i : Nat) : Except Fault Nat :=
  if i < 16 then .ok (s.key i) else .error (.readOutOfBounds .key i)

/-- Read of `gfx[i]`, an array of `64 * 32` elements. -/
def rdGfx (s : chip8) (i : Nat) : Except Fault Nat :=
  if i < 64 * 32 then .ok (s.gfx i) else .error (.readOutOfBounds .gfx i)

/-- Write `gfx[i] = v`. -/
def wrGfx (s : chip8) (i v : Nat) : Except Fault chip8 :=
  if i < 64 * 32 then .ok { s with gfx := Function.update s.gfx i v }
  else .error (.writeOutOfBounds .gfx i v)

/-- Read of `memory[i]`, an array of 4096 elements. -/
def rdMem (s : chip8) (i : Nat) : Except Fault Nat :=
  if i < 4096 then .ok (s.memory i) else .error (.readOutOfBounds .memory i)

/-- Write `memory[i] = v`. -/
def wrMem (s : chip8) (i v : Nat) : Except Fault chip8 :=
  if i < 4096 then .ok { s with memory := Function.update s.memory i v }
  else .error (.writeOutOfBounds .memory i v)

/-- Read of `V[i]`, an array of 16 elements. -/
def rdV (s : chip8) (i : Nat) : Except Fault Nat :=
  if i < 16 then .ok (s.V i) else .error (.readOutOfBounds .V i)

/-- Write `V[i] = v`. -/
def wrV (s : chip8) (i v : Nat) : Except Fault chip8 :=
  if i < 16 then .ok { s with V := Function.update s.V i v }
  else .error (.writeOutOfBounds .V i v)

/-- Read of `stack[i]`, an array of 16 elements. -/
def rdStack (s : chip8) (i : Nat) : Except Fault Nat :=
  if i < 16 then .ok (s.stack i) else .error (.readOutOfBounds .stack i)

/-- Write `stack[i] = v`. -/
def wrStack (s : chip8) (i v : Nat) : Except Fault chip8 :=
  if i < 16 then .ok { s with stack := Function.update s.stack i v }
  else .error (.writeOutOfBounds .stack i v)

/-- The statement `printf ("Unknown opcode: 0x%X\n", opcode);`. -/
def printUnknown (s : chip8) : chip8 :=
  { s with out := s.out ++ [Msg.unknownOpcode s.opcode] }

/-- `chip8::initialize`: the assignments and the four loops of the source, in
order (the source spells the register array `v` in the second loop).  The
display, the keys and `drawFlag` are not assigned. -/
def init (s : chip8) : Except Fault chip8 := do
  let s := { s with PC := 0x200, opcode := 0, I := 0, sp := 0 }
  let s ← forLoop 16 (fun i s => s.wrStack i 0) s
  let s ← forLoop 16 (fun i s => s.wrV i 0) s
  let s ← forLoop 4096 (fun i s => s.wrMem i 0) s
  let s ← forLoop 80 (fun i s => s.wrMem i (chip8Fontset.getD i 0)) s
  pure { s with delayTimer := 0, soundTimer := 0 }

/-- `chip8::getOpcode`: `opcode = memory[PC] << 8 | memory[PC+1];`. -/
def getOpcode (s : chip8) : Except Fault chip8 := do
  let hi ← s.rdMem s.PC
  let lo ← s.rdMem (s.PC + 1)
  pure { s with opcode := u16 (((hi <<< 8) ||| lo : Nat) : Int) }

/-- Case `00E0`: the two nested loops writing `gfx[i*64+j] = 0x0000`, then
`drawFlag = 1`. -/
def op00E0 (s : chip8) : Except Fault chip8 := do
  let s ← forLoop 64 (fun i s => forLoop 32 (fun j s => s.wrGfx (i * 64 + j) 0) s) s
  pure { s with drawFlag := true }

/-- Case `00EE`: `PC = stack[sp]; sp--;`. -/
def op00EE (s : chip8) : Except Fault chip8 := do
  let a ← s.rdStack s.sp
  let s := { s with PC := a }
  pure { s with sp := u16 ((s.sp : Int) - 1) }

/-- The inner `switch(opcode & 0x000F)` of case `0x0000`. -/
def op0xxx (s : chip8) : Except Fault chip8 :=
  if s.opcode &&& 0x000F = 0x0000 then s.op00E0
  else if s.opcode &&& 0x000F = 0x000E then s.op00EE
  else pure s.printUnknown

/-- Case `1NNN`: `PC = opcode & 0xFFF; PC -= 2;`. -/
def op1NNN (s : chip8) : Except Fault chip8 :=
  let s := { s with PC := s.opcode &&& 0xFFF }
  pure { s with PC := u16 ((s.PC : Int) - 2) }

/-- Case `2NNN`: `sp++; stack[sp] = PC; PC = opcode & 0x0FFF; PC -= 2;`. -/
def op2NNN (s : chip8) : Except Fault chip8 := do
  let s := { s with sp := u16 ((s.sp : Int) + 1) }
  let s ← s.wrStack s.sp s.PC
  let s := { s with PC := s.opcode &&& 0x0FFF }
  pure { s with PC := u16 ((s.PC : Int) - 2) }

/-- Case `3XNN`: `if(V[x] == opcode & 0x00FF){ PC += 2; }`.  In C++ `==` binds
tighter than `&`, so the condition is `(V[x] == opcode) & 0x00FF`. -/
def op3XNN (s : chip8) (x : Nat) : Except Fault chip8 := do
  let vx ← s.rdV x
  if ((if vx = s.opcode then 1 else 0) &&& 0x00FF) ≠ 0 then
    pure { s with PC := u16 ((s.PC : Int) + 2) }
  else pure s

/-- Case `4XNN`: `if(V[x] != opcode & 0x00FF){ PC += 2; }`, parsed as
`(V[x] != opcode) & 0x00FF`. -/
def op4XNN (s : chip8) (x : Nat) : Except Fault chip8 := do
  let vx ← s.rdV x
  if ((if vx ≠ s.opcode then 1 else 0) &&& 0x00FF) ≠ 0 then
    pure { s with PC := u16 ((s.PC : Int) + 2) }
  else pure s

/-- Case `5XY0`: `if(V[x] == V[y]){ PC += 2; }`. -/
def op5XY0 (s : chip8) (x y : Nat) : Except Fault chip8 := do
  let vx ← s.rdV x
  let vy ← s.rdV y
  if vx = vy then pure { s with PC := u16 ((s.PC : Int) + 2) } else pure s

/-- Case `6XNN`: `V[x] = opcode & 0x00FF;`. -/
def op6XNN (s : chip8) (x : Nat) : Except Fault chip8 :=
  s.wrV x (u8 ((s.opcode &&& 0x00FF : Nat) : Int))

/-- Case `7XNN`: `V[x] += opcode & 0x00FF;`. -/
def op7XNN (s : chip8) (x : Nat) : Except Fault chip8 := do
  let vx ← s.rdV x
  s.wrV x (u8 ((vx : Int) + ((s.opcode &&& 0x00FF : Nat) : Int)))

/-- Case `8XY0`: `V[x] = V[y];`. -/
def op8XY0 (s : chip8) (x y : Nat) : Except Fault chip8 := do
  let vy ← s.rdV y
  s.wrV x vy

/-- Case `8XY1`: `V[x] = V[x] | V[y];`. -/
def op8XY1 (s : chip8) (x y : Nat) : Except Fault chip8 := do
  let vx ← s.rdV x
  let vy ← s.rdV y
  s.wrV x (u8 ((vx ||| vy : Nat) : Int))

/-- Case `8XY2`: `V[x] = V[x] & V[y];`. -/
def op8XY2 (s : chip8) (x y : Nat) : Except Fault chip8 := do
  let vx ← s.rdV x
  let vy ← s.rdV y
  s.wrV x (u8 ((vx &&& vy : Nat) : Int))

/-- Case `8XY3`: `V[x] = V[x] ^ V[y];`. -/
def op8XY3 (s : chip8) (x y : Nat) : Except Fault chip8 := do
  let vx ← s.rdV x
  let vy ← s.rdV y
  s.wrV x (u8 ((vx ^^^ vy : Nat) : Int))

/-- Case `8XY4`: `if (V[y] > (0xFF - V[x])) V[16] = 1; else V[16] = 0;` and then
`V[x] += V[y];`. -/
def op8XY4 (s : chip8) (x y : Nat) : Except Fault chip8 := do
  let vy ← s.rdV y
  let vx ← s.rdV x
  let s ← if (vy : Int) > 0xFF - (vx : Int) then s.wrV 16 1 else s.wrV 16 0
  let vx ← s.rdV x
  let vy ← s.rdV y
  s.wrV x (u8 ((vx : Int) + (vy : Int)))

/-- Case `8XY5`: `if (V[x] > V[y]) V[16] = 1; else V[16] = 0;` and then
`V[x] -= V[y];`. -/
def op8XY5 (s : chip8) (x y : Nat) : Except Fault chip8 := do
  let vx ← s.rdV x
  let vy ← s.rdV y
  let s ← if vx > vy then s.wrV 16 1 else s.wrV 16 0
  let vx ← s.rdV x
  let vy ← s.rdV y
  s.wrV x (u8 ((vx : Int) - (vy : Int)))

/-- Case `8XY6`: `V[16] = V[x] & 0x0001; V[x] = V[x] >> 1;`. -/
def op8XY6 (s : chip8) (x : Nat) : Except Fault chip8 := do
  let vx ← s.rdV x
  let s ← s.wrV 16 (u8 ((vx &&& 0x0001 : Nat) : Int))
  let vx ← s.rdV x
  s.wrV x (u8 ((vx >>> 1 : Nat) : Int))

/-- Case `8XY7`: `if (V[y] > V[x]) V[16] = 1; else V[16] = 0;` and then
`V[x] = V[y] - V[x];`. -/
def op8XY7 (s : chip8) (x y : Nat) : Except Fault chip8 := do
  let vy ← s.rdV y
  let vx ← s.rdV x
  let s ← if vy > vx then s.wrV 16 1 else s.wrV 16 0
  let vy ← s.rdV y
  let vx ← s.rdV x
  s.wrV x (u8 ((vy : Int) - (vx : Int)))

/-- Case `8XYE`: `V[16] = (V[x] & 0x0080) >> 7; V[x] = V[x] << 1;`. -/
def op8XYE (s : chip8) (x : Nat) : Except Fault chip8 := do
  let vx ← s.rdV x
  let s ← s.wrV 16 (u8 (((vx &&& 0x0080) >>> 7 : Nat) : Int))
  let vx ← s.rdV x
  s.wrV x (u8 ((vx <<< 1 : Nat) : Int))

/-- The inner `switch(opcode & 0x000F)` of case `0x8000`. -/
def op8xxx (s : chip8) (x y : Nat) : Except Fault chip8 :=
  if s.opcode &&& 0x000F = 0x0000 then s.op8XY0 x y
  else if s.opcode &&& 0x000F = 0x0001 then s.op8XY1 x y
  else if s.opcode &&& 0x000F = 0x0002 then s.op8XY2 x y
  else if s.opcode &&& 0x000F = 0x0003 then s.op8XY3 x y
  else if s.opcode &&& 0x000F = 0x0004 then s.op8XY4 x y
  else if s.opcode &&& 0x000F = 0x0005 then s.op8XY5 x y
  else if s.opcode &&& 0x000F = 0x0006 then s.op8XY6 x
  else if s.opcode &&& 0x000F = 0x0007 then s.op8XY7 x y
  else if s.opcode &&& 0x000F = 0x000E then s.op8XYE x
  else pure s.printUnknown

/-- Case `9XY0`: `if(V[x] != V[y]){ PC += 2; }`. -/
def op9XY0 (s : chip8) (x y : Nat) : Except Fault chip8 := do
  let vx ← s.rdV x
  let vy ← s.rdV y
  if vx ≠ vy then pure { s with PC := u16 ((s.PC : Int) + 2) } else pure s

/-- Case `ANNN`: `I = opcode & 0x0FFF;`. -/
def opANNN (s : chip8) : Except Fault chip8 :=
  pure { s with I := s.opcode &&& 0x0FFF }

/-- Case `BNNN`: `PC = (opcode & 0xFFF) + V[0]; PC -= 2;`. -/
def opBNNN (s : chip8) : Except Fault chip8 := do
  let v0 ← s.rdV 0
  let s := { s with PC := u16 (((s.opcode &&& 0xFFF : Nat) : Int) + (v0 : Int)) }
  pure { s with PC := u16 ((s.PC : Int) - 2) }

/-- Case `CXNN`: `V[x] = (rand() % 255) & (opcode & 0x00FF)`. -/
def opCXNN (s : chip8) (x : Nat) : Except Fault chip8 := do
  let r := s.randSeq s.randCalls
  let s := { s with randCalls := s.randCalls + 1 }
  s.wrV x (u8 (((r % 255) &&& (s.opcode &&& 0x00FF) : Nat) : Int))

/-- The body of the inner loop of case `DXYN` for one `xline`: when the sprite
bit `pixel & 0x80 >> xline` is set, `V[16] = 1` if the screen cell holds 1, and
then `gfx[...] ^= 1`.  Here `x` and `y` are the coordinates read from the
registers. -/
def drawPixel (x y yline pixel xline : Nat) (s : chip8) : Except Fault chip8 :=
  if pixel &&& (0x80 >>> xline) ≠ 0 then do
    let g ← s.rdGfx (x + xline + ((y + yline) * 64))
    let s ← if g = 1 then s.wrV 16 1 else pure s
    let g ← s.rdGfx (x + xline + ((y + yline) * 64))
    s.wrGfx (x + xline + ((y + yline) * 64)) (u8 ((g ^^^ 1 : Nat) : Int))
  else pure s

/-- The body of the outer loop of case `DXYN` for one `yline`:
`pixel = memory[I + yline];` and the loop over `xline`. -/
def drawLine (x y yline : Nat) (s : chip8) : Except Fault chip8 := do
  let pixel ← s.rdMem (s.I + yline)
  forLoop 8 (fun xline s => drawPixel x y yline (u16 (pixel : Int)) xline s) s

/-- The loop `for (int yline = 0; yline < height; yline++)` of case `DXYN`. -/
def drawSprite (x y height : Nat) (s : chip8) : Except Fault chip8 :=
  forLoop height (fun yline s => drawLine x y yline s) s

/-- Case `DXYN`: `x = V[x]; y = V[y]; height = opcode & 0x000F; V[16] = 0;`,
the drawing loops, `drawFlag = 1`. -/
def opDXYN (s : chip8) (x y : Nat) : Except Fault chip8 := do
  let vx ← s.rdV x
  let vy ← s.rdV y
  let x := u16 (vx : Int)
  let y := u16 (vy : Int)
  let height := u16 ((s.opcode &&& 0x000F : Nat) : Int)
  let s ← s.wrV 16 0
  let s ← drawSprite x y height s
  pure { s with drawFlag := true }

/-- Case `EX9E`: `if(key[V[x]] == 1){ PC += 2; }`. -/
def opEX9E (s : chip8) (x : Nat) : Except Fault chip8 := do
  let vx ← s.rdV x
  let k ← s.rdKey vx
  if k = 1 then pure { s with PC := u16 ((s.PC : Int) + 2) } else pure s

/-- Case `EXA1`: `if(key[V[x]] == 0){ PC += 2; }`. -/
def opEXA1 (s : chip8) (x : Nat) : Except Fault chip8 := do
  let vx ← s.rdV x
  let k ← s.rdKey vx
  if k = 0 then pure { s with PC := u16 ((s.PC : Int) + 2) } else pure s

/-- The inner `switch(opcode & 0x000F)` of case `0xE000`. -/
def opExxx (s : chip8) (x : Nat) : Except Fault chip8 :=
  if s.opcode &&& 0x000F = 0x000E then s.opEX9E x
  else if s.opcode &&& 0x000F = 0x0001 then s.opEXA1 x
  else pure s.printUnknown

/-- Case `FX07`: `V[x] = delayTimer;`. -/
def opFX07 (s : chip8) (x : Nat) : Except Fault chip8 :=
  s.wrV x (u8 (s.delayTimer : Int))

/-- The body of the loop of case `FX0A`:
`if (key[i] == 1) V[x] = i; else PC -= 2;`. -/
def keyScan (x i : Nat) (s : chip8) : Except Fault chip8 := do
  let k ← s.rdKey i
  if k = 1 then s.wrV x (u8 (i : Int))
  else pure { s with PC := u16 ((s.PC : Int) - 2) }

/-- Case `FX0A`: the loop over the 16 keys. -/
def opFX0A (s : chip8) (x : Nat) : Except Fault chip8 :=
  forLoop 16 (fun i s => keyScan x i s) s

/-- Case `FX15`: `delayTimer = V[x];`. -/
def opFX15 (s : chip8) (x : Nat) : Except Fault chip8 := do
  let vx ← s.rdV x
  pure { s with delayTimer := u8 (vx : Int) }

/-- Case `FX18`: `soundTimer = V[x];`. -/
def opFX18 (s : chip8) (x : Nat) : Except Fault chip8 := do
  let vx ← s.rdV x
  pure { s with soundTimer := u8 (vx : Int) }

/-- Case `FX1E`: `I += V[x];`. -/
def opFX1E (s : chip8) (x : Nat) : Except Fault chip8 := do
  let vx ← s.rdV x
  pure { s with I := u16 ((s.I : Int) + (vx : Int)) }

/-- Case `FX29`: the case holds only a comment and `break;`. -/
def opFX29 (s : chip8) : Except Fault chip8 :=
  pure s

/-- Case `FX33`: `memory[I + 0] = V[x] / 100; memory[I + 1] = (V[x] /10) % 10;
memory[I + 2] = (V[x] % 100) % 10;`. -/
def opFX33 (s : chip8) (x : Nat) : Except Fault chip8 := do
  let vx ← s.rdV x
  let s ← s.wrMem (s.I + 0) (u8 ((vx / 100 : Nat) : Int))
  let vx ← s.rdV x
  let s ← s.wrMem (s.I + 1) (u8 (((vx / 10) % 10 : Nat) : Int))
  let vx ← s.rdV x
  s.wrMem (s.I + 2) (u8 (((vx % 100) % 10 : Nat) : Int))

/-- The body of the loop of case `FX55`: `memory[(I + i)] = V[i]`. -/
def dumpReg (i : Nat) (s : chip8) : Except Fault chip8 := do
  let vi ← s.rdV i
  s.wrMem (s.I + i) (u8 (vi : Int))

/-- Case `FX55`: `int n = (opcode & 0x0F00) >> 8; for(int i = 0; i < n; i++)`. -/
def opFX55 (s : chip8) : Except Fault chip8 :=
  forLoop ((s.opcode &&& 0x0F00) >>> 8) (fun i s => dumpReg i s) s

/-- The body of the loop of case `FX65`: `V[i] = memory[(I + i)]`. -/
def fillReg (i : Nat) (s : chip8) : Except Fault chip8 := do
  let m ← s.rdMem (s.I + i)
  s.wrV i (u8 (m : Int))

/-- Case `FX65`: `int n = (opcode & 0x0F00) >> 8; for(int i = 0; i < n; i++)`. -/
def opFX65 (s : chip8) : Except Fault chip8 :=
  forLoop ((s.opcode &&& 0x0F00) >>> 8) (fun i s => fillReg i s) s

/-- The inner `switch(opcode & 0x00FF)` of case `0xF000`. -/
def opFxxx (s : chip8) (x : Nat) : Except Fault chip8 :=
  if s.opcode &&& 0x00FF = 0x0007 then s.opFX07 x
  else if s.opcode &&& 0x00FF = 0x000A then s.opFX0A x
  else if s.opcode &&& 0x00FF = 0x0015 then s.opFX15 x
  else if s.opcode &&& 0x00FF = 0x0018 then s.opFX18 x
  else if s.opcode &&& 0x00FF = 0x001E then s.opFX1E x
  else if s.opcode &&& 0x00FF = 0x0029 then s.opFX29
  else if s.opcode &&& 0x00FF = 0x0033 then s.opFX33 x
  else if s.opcode &&& 0x00FF = 0x0055 then s.opFX55
  else if s.opcode &&& 0x00FF = 0x0065 then s.opFX65
  else pure s.printUnknown

/-- The outer `switch(opcode & 0xF000)` of `chip8::runOpcode`, with
`x = (opcode & 0x0F00) >> 8` and `y = (opcode & 0x00F0) >> 4`. -/
def dispatch (s : chip8) : Except Fault chip8 :=
  let x := u16 (((s.opcode &&& 0x0F00) >>> 8 : Nat) : Int)
  let y := u16 (((s.opcode &&& 0x00F0) >>> 4 : Nat) : Int)
  if s.opcode &&& 0xF000 = 0x0000 then s.op0xxx
  else if s.opcode &&& 0xF000 = 0x1000 then s.op1NNN
  else if s.opcode &&& 0xF000 = 0x2000 then s.op2NNN
  else if s.opcode &&& 0xF000 = 0x3000 then s.op3XNN x
  else if s.opcode &&& 0xF000 = 0x4000 then s.op4XNN x
  else if s.opcode &&& 0xF000 = 0x5000 then s.op5XY0 x y
  else if s.opcode &&& 0xF000 = 0x6000 then s.op6XNN x
  else if s.opcode &&& 0xF000 = 0x7000 then s.op7XNN x
  else if s.opcode &&& 0xF000 = 0x8000 then s.op8xxx x y
  else if s.opcode &&& 0xF000 = 0x9000 then s.op9XY0 x y
  else if s.opcode &&& 0xF000 = 0xA000 then s.opANNN
  else if s.opcode &&& 0xF000 = 0xB000 then s.opBNNN
  else if s.opcode &&& 0xF000 = 0xC000 then s.opCXNN x
  else if s.opcode &&& 0xF000 = 0xD000 then s.opDXYN x y
  else if s.opcode &&& 0xF000 = 0xE000 then s.opExxx x
  else if s.opcode &&& 0xF000 = 0xF000 then s.opFxxx x
  else pure s.printUnknown

/-- `chip8::runOpcode`: the dispatch, then `PC += 2;`. -/
def runOpcode (s : chip8) : Except Fault chip8 := do
  let s ← s.dispatch
  pure { s with PC := u16 ((s.PC : Int) + 2) }

/-- The timer update at the end of `chip8::emulateCycle`. -/
def updateTimers (s : chip8) : chip8 :=
  let s := if s.delayTimer > 0 then { s with delayTimer := u8 ((s.delayTimer : Int) - 1) } else s
  if s.soundTimer > 0 then
    let s := if s.soundTimer = 1 then { s with out := s.out ++ [Msg.beep] } else s
    { s with soundTimer := u8 ((s.soundTimer : Int) - 1) }
  else s

/-- `chip8::emulateCycle`: `getOpcode(); runOpcode();` and the timer update. -/
def emulateCycle (s : chip8) : Except Fault chip8 := do
  let s ← s.getOpcode
  let s ← s.runOpcode
  pure s.updateTimers

end chip8

/-! ## Concrete machine states used to run the code -/

/-- A machine with every array cell and every scalar zero and nothing printed. -/
def zeroState : chip8 :=
  { key := fun _ => 0, gfx := fun _ => 0, delayTimer := 0, soundTimer := 0, opcode := 0,
    memory := fun _ => 0, V := fun _ => 0, I := 0, PC := 0, stack := fun _ => 0, sp := 0,
    drawFlag := false, out := [], randSeq := fun _ => 0, randCalls := 0 }

/-- Scenario S1 before its third step: `V[0] = 0xFF`, `V[1] = 0x01`, the fetched
opcode is `0x8014` and `PC = 0x204`. -/
def stateAdd : chip8 :=
  { zeroState with
    V := fun i => if i = 0 then 0xFF else if i = 1 then 0x01 else 0,
    opcode := 0x8014, PC := 0x204 }

/-- A machine about to run `0x8015` with `V[0] = V[1] = 5` at `PC = 0x200`. -/
def stateSub : chip8 :=
  { zeroState with
    V := fun i => if i = 0 then 5 else if i = 1 then 5 else 0,
    opcode := 0x8015, PC := 0x200 }

/-- Scenario S3 before its second step: `V[0] = 0x42`, the fetched opcode is
`0x3042` and `PC = 0x202`. -/
def stateSkip : chip8 :=
  { zeroState with
    V := fun i => if i = 0 then 0x42 else 0,
    opcode := 0x3042, PC := 0x202 }

/-- Scenario S4 before its first step: the fetched opcode is `0x2206`,
`PC = 0x200`, `SP = 0` and the stack is zero. -/
def stateCall : chip8 :=
  { zeroState with opcode := 0x2206, PC := 0x200, sp := 0 }

/-- The machine of scenario S4 with fifteen calls already nested: `SP = 15`. -/
def stateCallDeep : chip8 :=
  { zeroState with opcode := 0x2206, PC := 0x200, sp := 15 }

/-- A machine about to run `00EE` at `PC = 0x208` with an empty stack: `SP = 0`
and `stack[0] = 0x300`. -/
def stateRetEmpty : chip8 :=
  { zeroState with opcode := 0x00EE, PC := 0x208, sp := 0,
                   stack := fun i => if i = 0 then 0x300 else 0 }

/-- A machine about to run `0x2206` at `PC = 0x200` with a full stack: `SP = 16`. -/
def stateCallFull : chip8 :=
  { zeroState with opcode := 0x2206, PC := 0x200, sp := 16 }

/-- The opcodes for which `runOpcode` ends in a `default:` branch, read off the
case labels of the outer switch and of the four inner switches. -/
def reachesDefault (op : Nat) : Bool :=
  if op &&& 0xF000 = 0x0000 then decide (op &&& 0x000F ∉ [0x0000, 0x000E])
  else if op &&& 0xF000 = 0x8000 then
    decide (op &&& 0x000F ∉ [0x0000, 0x0001, 0x0002, 0x0003, 0x0004, 0x0005, 0x0006, 0x0007,
      0x000E])
  else if op &&& 0xF000 = 0xE000 then decide (op &&& 0x000F ∉ [0x000E, 0x0001])
  else if op &&& 0xF000 = 0xF000 then
    decide (op &&& 0x00FF ∉ [0x0007, 0x000A, 0x0015, 0x0018, 0x001E, 0x0029, 0x0033, 0x0055,
      0x0065])
  else
    decide (op &&& 0xF000 ∉ [0x1000, 0x2000, 0x3000, 0x4000, 0x5000, 0x6000, 0x7000, 0x9000,
      0xA000, 0xB000, 0xC000, 0xD000])

/-- A machine about to run `0x5011` at `PC = 0x200` with `V[0] = V[1] = 7`. -/
def stateSE1 : chip8 :=
  { zeroState with opcode := 0x5011, PC := 0x200, V := fun _ => 7 }

/-- A machine about to run `0x0121` at `PC = 0x200`. -/
def stateSys : chip8 :=
  { zeroState with opcode := 0x0121, PC := 0x200 }

/-- A machine about to run `0x9011` at `PC = 0x200` with `V[0] = 1`, `V[1] = 2`. -/
def stateSNE1 : chip8 :=
  { zeroState with opcode := 0x9011, PC := 0x200,
                   V := fun i => if i = 0 then 1 else if i = 1 then 2 else 0 }

/-- A machine about to run `0x0120` at `PC = 0x200`. -/
def stateSys0 : chip8 :=
  { zeroState with opcode := 0x0120, PC := 0x200 }

/-- A machine about to run `0x012E` at `PC = 0x200` with `SP = 1` and
`stack[1] = 0x300`. -/
def stateSysE : chip8 :=
  { zeroState with opcode := 0x012E, PC := 0x200, sp := 1,
                   stack := fun i => if i = 1 then 0x300 else 0 }

/-- A machine about to run `0xE0FE` at `PC = 0x200` with `V[0] = 0` and key 0
pressed. -/
def stateKeyFE : chip8 :=
  { zeroState with opcode := 0xE0FE, PC := 0x200,
                   key := fun i => if i = 0 then 1 else 0 }

/-- A machine about to run `00E0` at `PC = 0x200` with every pixel on. -/
def stateLit : chip8 :=
  { zeroState with gfx := fun _ => 1, opcode := 0x00E0, PC := 0x200 }

/-- A machine about to run `0xD011` at `PC = 0x200` on a clear screen, with
`V[0] = 63`, `V[1] = 31`, `I = 0x300` and the sprite byte `0xFF` at `0x300`. -/
def stateCorner : chip8 :=
  { zeroState with opcode := 0xD011, PC := 0x200, I := 0x300,
                   V := fun i => if i = 0 then 63 else if i = 1 then 31 else 0,
                   memory := fun i => if i = 0x300 then 0xFF else 0 }

/-- Scenario S5 before its first step: the fetched opcode is `0xD011`, the
screen is clear, `V[0] = V[1] = 0`, `I = 0x300` and the sprite byte `0xFF` is at
`0x300`. -/
def stateSprite : chip8 :=
  { zeroState with opcode := 0xD011, PC := 0x200, I := 0x300,
                   memory := fun i => if i = 0x300 then 0xFF else 0 }

/-- The machine of scenario S5 with the pixels `[0..8)` of row 0 already on. -/
def stateSpriteOn : chip8 :=
  { stateSprite with gfx := fun i => if i < 8 then 1 else 0 }

/-- A machine about to run `0xF155` at `PC = 0x200` with `V[0] = 0x11`,
`V[1] = 0x22`, `I = 0x300` and zero memory. -/
def stateDump : chip8 :=
  { zeroState with opcode := 0xF155, PC := 0x200, I := 0x300,
                   V := fun i => if i = 0 then 0x11 else if i = 1 then 0x22 else 0 }

/-- The machine reached from `stateDump` by `0xF155`, with every register then
overwritten by `0xAA`, about to run `0xF165` at `PC = 0x202`. -/
def stateFill : chip8 :=
  { zeroState with opcode := 0xF165, PC := 0x202, I := 0x300,
                   V := fun _ => 0xAA,
                   memory := Function.update (fun _ => 0) 0x300 0x11 }

/-- Scenario S6: `V[2] = 234`, `I = 0x300`, the fetched opcode is `0xF233` and
`PC = 0x200`. -/
def stateBcd : chip8 :=
  { zeroState with opcode := 0xF233, PC := 0x200, I := 0x300,
                   V := fun i => if i = 2 then 234 else 0 }

/-- A machine about to run `0xF029` at `PC = 0x200` with `V[0] = 1` and
`I = 0x300`. -/
def stateFont : chip8 :=
  { zeroState with opcode := 0xF029, PC := 0x200, I := 0x300,
                   V := fun i => if i = 0 then 1 else 0 }

/-- A machine about to run `0xF00A` at `PC = 0x200` with no key pressed. -/
def stateWait : chip8 :=
  { zeroState with opcode := 0xF00A, PC := 0x200 }

/-- A machine about to run `0xF00A` at `PC = 0x200` with key 3 pressed. -/
def stateWaitKey : chip8 :=
  { zeroState with opcode := 0xF00A, PC := 0x200,
                   key := fun i => if i = 3 then 1 else 0 }

/-- A machine about to run `0x1000` (a jump to address 0) at `PC = 0x200`. -/
def stateJump0 : chip8 :=
  { zeroState with opcode := 0x1000, PC := 0x200 }

/-- A machine about to run `0x1001` (a jump to address 1) at `PC = 0x200`. -/
def stateJump1 : chip8 :=
  { zeroState with opcode := 0x1001, PC := 0x200 }

/-- Scenario S3 before its first step: `PC = 0x200` and the bytes `60 42` at
`0x200`. -/
def stateFetch : chip8 :=
  { zeroState with PC := 0x200,
                   memory := fun i => if i = 0x200 then 0x60 else if i = 0x201 then 0x42 else 0 }

/-- A machine with every pixel on, every key pressed and `drawFlag` set. -/
def stateDirty : chip8 :=
  { zeroState with gfx := fun _ => 1, key := fun _ => 1, drawFlag := true }

/-- A machine at `PC = 0x200` with the bytes `60 FF` (`LD V0, 0xFF`) at `0x200`,
`delayTimer = 5` and `soundTimer = 1`. -/
def stateTick : chip8 :=
  { zeroState with PC := 0x200, delayTimer := 5, soundTimer := 1,
                   memory := fun i => if i = 0x200 then 0x60 else if i = 0x201 then 0xFF else 0 }

/-- The stack pointer and the two timers of a state. -/
def counters (s : chip8) : Nat × Nat × Nat :=
  (s.sp, s.delayTimer, s.soundTimer)

/-- The next cycle of `s` fetches a return (an opcode `0NNN` with low nibble E,
which the dispatch runs as case `00EE`) while the stack pointer is 0. -/
def returnsOnEmptyStack (s : chip8) : Bool :=
  match s.getOpcode with
  | .ok t => decide (s.sp = 0 ∧ t.opcode &&& 0xF000 = 0x0000 ∧ t.opcode &&& 0x000F = 0x000E)
  | .error _ => false

/-- The next cycle of `s` fetches a call (an opcode `2NNN`) while the stack
pointer is 15 or more, so that the incremented stack pointer is not an index of
`stack[16]`. -/
def callsOnFullStack (s : chip8) : Bool :=
  match s.getOpcode with
  | .ok t => decide (15 ≤ s.sp ∧ t.opcode &&& 0xF000 = 0x2000)
  | .error _ => false

/-- The machine after `n` calls of `emulateCycle` in a row. -/
def cycles : Nat → chip8 → Except Fault chip8
  | 0, s => .ok s
  | n + 1, s => cycles n s >>= chip8.emulateCycle

/-- The machine `stateTick` after `getOpcode`: the opcode is `0x60FF`. -/
def stateTickFetched : chip8 :=
  { stateTick with opcode := 0x60FF }

/-- The machine `stateTick` after `getOpcode` and `runOpcode`: `V[0] = 0xFF`,
`PC = 0x202`, the timers not yet updated. -/
def stateTickRun : chip8 :=
  { stateTick with opcode := 0x60FF, PC := 0x202, V := Function.update stateTick.V 0 0xFF }

/-- Scenario S4: `PC = 0x200`, `SP = 0` and the bytes `22 06 00 00 00 00 00 EE`
at `0x200`. -/
def stateS4 : chip8 :=
  { zeroState with PC := 0x200,
                   memory := fun i => if i = 0x200 then 0x22 else if i = 0x201 then 0x06
                                      else if i = 0x207 then 0xEE else 0 }

/-- The machine of scenario S4 with fifteen calls already nested: `SP = 15`. -/
def stateS4Deep : chip8 :=
  { stateS4 with sp := 15 }

/-- The machine `stateS4` after its first cycle (the call): `PC = 0x206`,
`SP = 1`, `stack[1] = 0x200`. -/
def stateS4Called : chip8 :=
  { stateS4 with opcode := 0x2206, PC := 0x206, sp := 1,
                 stack := Function.update stateS4.stack 1 0x200 }

/-- The machine `stateS4` after its second cycle (the return): `PC = 0x202`,
`SP = 0`. -/
def stateS4Returned : chip8 :=
  { stateS4 with opcode := 0x00EE, PC := 0x202, sp := 0,
                 stack := Function.update stateS4.stack 1 0x200 }

/-- A machine about to fetch at `PC = 0xFFF`, the last memory cell. -/
def stateFetchEdge : chip8 :=
  { zeroState with PC := 0xFFF }

/-- A machine about to run `0xE09E` at `PC = 0x200` with `V[0] = 16`. -/
def stateKey16 : chip8 :=
  { zeroState with opcode := 0xE09E, PC := 0x200, V := fun i => if i = 0 then 16 else 0 }

/-- A machine about to run `0xF033` at `PC = 0x200` with `I = 0xFFE`. -/
def stateBcdEdge : chip8 :=
  { zeroState with opcode := 0xF033, PC := 0x200, I := 0xFFE }

/-- A machine about to run `0xF255` at `PC = 0x200` with `I = 0xFFF`. -/
def stateDumpEdge : chip8 :=
  { zeroState with opcode := 0xF255, PC := 0x200, I := 0xFFF }

/-! ## Decoding lemmas -/

theorem and_000F (n : Nat) : n &&& 0x000F = n % 16 :=
  Nat.and_pow_two_sub_one_eq_mod n 4

theorem and_00FF (n : Nat) : n &&& 0x00FF = n % 256 :=
  Nat.and_pow_two_sub_one_eq_mod n 8

theorem and_0FFF (n : Nat) : n &&& 0x0FFF = n % 4096 :=
  Nat.and_pow_two_sub_one_eq_mod n 12

theorem nibble_x (n : Nat) : (n &&& 0x0F00) >>> 8 = n / 256 % 16 := by
  show (n &&& ((2 ^ 4 - 1) <<< 8)) >>> 8 = (n / 2 ^ 8) % 2 ^ 4
  apply Nat.eq_of_testBit_eq
  intro i
  rw [← Nat.shiftRight_eq_div_pow]
  simp only [Nat.testBit_shiftRight, Nat.testBit_and, Nat.testBit_shiftLeft,
    Nat.testBit_mod_two_pow, Nat.testBit_two_pow_sub_one]
  by_cases hi : i < 4 <;> simp [hi]

theorem nibble_y (n : Nat) : (n &&& 0x00F0) >>> 4 = n / 16 % 16 := by
  show (n &&& ((2 ^ 4 - 1) <<< 4)) >>> 4 = (n / 2 ^ 4) % 2 ^ 4
  apply Nat.eq_of_testBit_eq
  intro i
  rw [← Nat.shiftRight_eq_div_pow]
  simp only [Nat.testBit_shiftRight, Nat.testBit_and, Nat.testBit_shiftLeft,
    Nat.testBit_mod_two_pow, Nat.testBit_two_pow_sub_one]
  by_cases hi : i < 4 <;> simp [hi]

theorem and_F000 (n : Nat) : n &&& 0xF000 = n / 4096 % 16 * 4096 := by
  have h : n / 4096 % 16 * 4096 = ((n / 2 ^ 12) % 2 ^ 4) <<< 12 := by
    rw [Nat.shiftLeft_eq]; norm_num
  rw [h]
  show n &&& ((2 ^ 4 - 1) <<< 12) = ((n / 2 ^ 12) % 2 ^ 4) <<< 12
  apply Nat.eq_of_testBit_eq
  intro i
  rw [← Nat.shiftRight_eq_div_pow]
  simp only [Nat.testBit_shiftRight, Nat.testBit_and, Nat.testBit_shiftLeft,
    Nat.testBit_mod_two_pow, Nat.testBit_two_pow_sub_one]
  by_cases hi : 12 ≤ i
  · have : 12 + (i - 12) = i := by omega
    simp [hi, this, Bool.and_comm]
  · simp [hi]

theorem u16_of_lt {n : Nat} (h : n < 65536) : u16 (n : Int) = n := by
  unfold u16; omega

theorem u8_of_lt {n : Nat} (h : n < 256) : u8 (n : Int) = n := by
  unfold u8; omega

/-- The register index `x` decoded by `runOpcode`. -/
theorem decode_x (n : Nat) : u16 (((n &&& 0x0F00) >>> 8 : Nat) : Int) = n / 256 % 16 := by
  rw [nibble_x, u16_of_lt (by omega)]

/-- The register index `y` decoded by `runOpcode`. -/
theorem decode_y (n : Nat) : u16 (((n &&& 0x00F0) >>> 4 : Nat) : Int) = n / 16 % 16 := by
  rw [nibble_y, u16_of_lt (by omega)]

/-! ## 8XY4 -/

/-- Every opcode `8XY4` stops at the write of the carry flag: the source stores
the flag in `V[16]`, one past the last register, before it adds. -/
theorem op8XY4_faults (s : chip8) (x y : Nat) (hx : x < 16) (hy : y < 16)
    (hop : s.opcode = 0x8004 + 256 * x + 16 * y) :
    s.runOpcode = .error (.writeOutOfBounds .V 16
      (if s.V x + s.V y > 0xFF then 1 else 0)) := by
  have h1 : s.opcode &&& 0xF000 = 0x8000 := by rw [and_F000]; omega
  have h2 : s.opcode &&& 0x000F = 4 := by rw [and_000F]; omega
  have h3 : s.opcode / 256 % 16 = x := by omega
  have h4 : s.opcode / 16 % 16 = y := by omega
  simp only [chip8.runOpcode, chip8.dispatch, decode_x, decode_y, h1, h2, h3, h4, chip8.op8xxx]
  simp only [chip8.op8XY4, chip8.rdV, chip8.wrV, hx, hy]
  by_cases hc : s.V x + s.V y > 0xFF
  · have : (s.V y : Int) > 0xFF - (s.V x : Int) := by omega
    simp [hc, this, bind, Except.bind]
  · have : ¬ (s.V y : Int) > 0xFF - (s.V x : Int) := by omega
    simp [hc, this, bind, Except.bind]

/-- C1, run on the code: with `V[0] = 0xFF`, `V[1] = 0x01` the opcode `0x8014`
does not produce `V[0] = 0x00`, `V[0xF] = 0x01`; it stops at the store of the
carry value 1 into `V[16]`, outside the 16 registers, before `V[0]` is updated. -/
theorem c1_add_writes_V16 :
    stateAdd.runOpcode = .error (.writeOutOfBounds .V 16 1) := by
  rfl

/-! ## 8XY5 -/

/-- Every opcode `8XY5` stops at the write of the flag, whose value is 1 only
when `V[x] > V[y]`. -/
theorem op8XY5_faults (s : chip8) (x y : Nat) (hx : x < 16) (hy : y < 16)
    (hop : s.opcode = 0x8005 + 256 * x + 16 * y) :
    s.runOpcode = .error (.writeOutOfBounds .V 16
      (if s.V x > s.V y then 1 else 0)) := by
  have h1 : s.opcode &&& 0xF000 = 0x8000 := by rw [and_F000]; omega
  have h2 : s.opcode &&& 0x000F = 5 := by rw [and_000F]; omega
  have h3 : s.opcode / 256 % 16 = x := by omega
  have h4 : s.opcode / 16 % 16 = y := by omega
  simp only [chip8.runOpcode, chip8.dispatch, decode_x, decode_y, h1, h2, h3, h4, chip8.op8xxx]
  simp only [chip8.op8XY5, chip8.rdV, chip8.wrV, hx, hy]
  by_cases hc : s.V x > s.V y
  · simp [hc, bind, Except.bind]
  · simp [hc, bind, Except.bind]

/-- C2, run on the code: with `V[0] = V[1] = 5` (no borrow) the opcode `0x8015`
computes the flag value 0 from `V[x] > V[y]` and stops at its store into
`V[16]`, outside the 16 registers; `V[0xF]` is not set to 1. -/
theorem c2_sub_equal_flag_zero_V16 :
    stateSub.runOpcode = .error (.writeOutOfBounds .V 16 0) := by
  rfl

/-! ## 3XKK -/

/-- The condition `V[x] == opcode & 0x00FF` of case `3XNN` compares the register
with the whole opcode: a byte register never equals an opcode `3XKK`, so the
instruction never skips. -/
theorem op3XNN_never_skips (s : chip8) (x kk : Nat) (hx : x < 16) (hkk : kk < 256)
    (hop : s.opcode = 0x3000 + 256 * x + kk) (hV : s.V x < 256) :
    s.runOpcode = .ok { s with PC := u16 ((s.PC : Int) + 2) } := by
  have h1 : s.opcode &&& 0xF000 = 0x3000 := by rw [and_F000]; omega
  have h3 : s.opcode / 256 % 16 = x := by omega
  have h5 : s.V x ≠ s.opcode := by omega
  simp [chip8.runOpcode, chip8.dispatch, decode_x, h1, h3, chip8.op3XNN, chip8.rdV, hx, h5,
    bind, Except.bind, pure, Except.pure]

/-- C3, run on the code: with `V[0] = 0x42` the opcode `0x3042` at `0x202` does
not skip; the step ends with `PC = 0x204` and nothing else changed. -/
theorem c3_se_does_not_skip :
    stateSkip.runOpcode = .ok { stateSkip with PC := 0x204 } := by
  rfl

/-! ## 2NNN and 00EE -/

theorem u16_sub_two_add_two {n : Nat} (h : n < 65536) :
    u16 ((u16 ((n : Int) - 2) : Int) + 2) = n := by
  unfold u16; omega

theorem u16_succ_pred {n : Nat} (h : n + 1 < 65536) :
    u16 ((u16 ((n : Int) + 1) : Int) - 1) = n := by
  unfold u16; omega

theorem u16_succ {n : Nat} (h : n + 1 < 65536) : u16 ((n : Int) + 1) = n + 1 := by
  unfold u16; omega

theorem u16_add_two {n : Nat} (h : n + 2 < 65536) : u16 ((n : Int) + 2) = n + 2 := by
  unfold u16; omega

/-- The step `2NNN` on a machine whose incremented stack pointer is still an
index of `stack`. -/
theorem op2NNN_run (s : chip8) (nnn : Nat) (hn : nnn < 4096)
    (hop : s.opcode = 0x2000 + nnn) (hsp : s.sp < 15) :
    s.runOpcode = .ok { s with sp := s.sp + 1,
                               stack := Function.update s.stack (s.sp + 1) s.PC,
                               PC := nnn } := by
  have h1 : s.opcode &&& 0xF000 = 0x2000 := by rw [and_F000]; omega
  have h2 : s.opcode &&& 0x0FFF = nnn := by rw [and_0FFF]; omega
  have h3 : u16 ((s.sp : Int) + 1) = s.sp + 1 := u16_succ (by omega)
  have h4 : s.sp + 1 < 16 := by omega
  simp [chip8.runOpcode, chip8.dispatch, h1, h2, h3, h4, chip8.op2NNN, chip8.wrStack,
    bind, Except.bind, pure, Except.pure, u16_sub_two_add_two (show nnn < 65536 by omega)]

/-- The step `00EE` on a machine whose stack pointer is an index of `stack`. -/
theorem op00EE_run (s : chip8) (hop : s.opcode = 0x00EE) (hsp : s.sp < 16) :
    s.runOpcode = .ok { s with PC := u16 ((s.stack s.sp : Int) + 2),
                               sp := u16 ((s.sp : Int) - 1) } := by
  have h1 : s.opcode &&& 0xF000 = 0x0000 := by rw [hop]; decide
  have h2 : s.opcode &&& 0x000F = 0x000E := by rw [hop]; decide
  simp [chip8.runOpcode, chip8.dispatch, h1, h2, chip8.op0xxx, chip8.op00EE, chip8.rdStack,
    hsp, bind, Except.bind, pure, Except.pure]

/-- C4 as stated fails on the code: `0x2206` at `0x200` with `SP = 0` leaves
`stack[0] = 0`, not `0x202`; the code stores the address `0x200` of the call
itself in `stack[1]`.  With `SP = 15` the same call stores into `stack[16]`,
outside the stack. -/
theorem c4_call_slot_counterexample :
    (∃ t, stateCall.runOpcode = .ok t ∧ t.PC = 0x206 ∧ t.sp = 1 ∧
        t.stack 0 = 0 ∧ t.stack 0 ≠ 0x202 ∧ t.stack 1 = 0x200) ∧
    stateCallDeep.runOpcode = .error (.writeOutOfBounds .stack 16 0x200) := by
  refine ⟨⟨_, rfl, rfl, rfl, rfl, by decide, rfl⟩, rfl⟩

/-- C4, amended: for every state with `SP < 15` and every target `nnn`, the
step `2NNN` located at address `a` stores `a` (the address of the call itself)
in `stack[SP + 1]`, increments `SP` by 1 and sets `PC = nnn`, changing nothing
else; the step `00EE` run immediately afterwards sets `PC = a + 2` and restores
`SP` to its old value. -/
theorem c4_call_then_ret (s : chip8) (nnn : Nat) (hn : nnn < 4096)
    (hop : s.opcode = 0x2000 + nnn) (hsp : s.sp < 15) (hpc : s.PC + 2 < 65536) :
    s.runOpcode = .ok { s with sp := s.sp + 1,
                               stack := Function.update s.stack (s.sp + 1) s.PC,
                               PC := nnn } ∧
    ({ s with sp := s.sp + 1, stack := Function.update s.stack (s.sp + 1) s.PC,
              PC := nnn, opcode := 0x00EE } : chip8).runOpcode =
      .ok { s with sp := s.sp, stack := Function.update s.stack (s.sp + 1) s.PC,
                   PC := s.PC + 2, opcode := 0x00EE } := by
  refine ⟨op2NNN_run s nnn hn hop hsp, ?_⟩
  rw [op00EE_run _ rfl (show s.sp + 1 < 16 by omega)]
  have h1 : u16 (((s.sp + 1 : Nat) : Int) - 1) = s.sp := by unfold u16; omega
  have h0 : u16 (s.sp : Int) = s.sp := u16_of_lt (by omega)
  simp [h0, h1, u16_add_two hpc]

/-- C4 witness: scenario S4, `0x2206` at `0x200` with `SP = 0`. -/
theorem c4_call_then_ret_witness :
    stateCall.runOpcode = .ok { stateCall with sp := 1,
                                               stack := Function.update stateCall.stack 1 0x200,
                                               PC := 0x206 } ∧
    ({ stateCall with sp := 1, stack := Function.update stateCall.stack 1 0x200,
                      PC := 0x206, opcode := 0x00EE } : chip8).runOpcode =
      .ok { stateCall with sp := 0, stack := Function.update stateCall.stack 1 0x200,
                           PC := 0x202, opcode := 0x00EE } :=
  c4_call_then_ret stateCall 0x206 (by decide) rfl (by decide) (by decide)

/-- C5 as stated fails on the code: `00EE` with `SP = 0` does not fail, it reads
`stack[0]`, ends with `PC = stack[0] + 2` and wraps `SP` to `0xFFFF`; `2NNN`
with `SP = 16` produces no `StackOverflow` either, it stores into `stack[17]`. -/
theorem c5_no_stack_errors_counterexample :
    stateRetEmpty.runOpcode = .ok { stateRetEmpty with PC := 0x302, sp := 0xFFFF } ∧
    stateCallFull.runOpcode = .error (.writeOutOfBounds .stack 17 0x200) := by
  exact ⟨rfl, rfl⟩

/-- C5, amended: the code has no `StackUnderflow` result; a step that executes
`00EE` when `SP == 0` succeeds, reads the in-range slot `stack[0]`, sets
`PC = (stack[0] + 2) mod 2^16` and leaves `SP = 0xFFFF`, changing nothing
else. -/
theorem c5_ret_on_empty_stack (s : chip8) (hop : s.opcode = 0x00EE) (hsp : s.sp = 0) :
    s.runOpcode = .ok { s with PC := (s.stack 0 + 2) % 65536, sp := 0xFFFF } := by
  rw [op00EE_run s hop (by omega), hsp]
  have h1 : u16 ((s.stack 0 : Int) + 2) = (s.stack 0 + 2) % 65536 := by unfold u16; omega
  have h2 : u16 (((0 : Nat) : Int) - 1) = 0xFFFF := by decide
  rw [h1, h2]

/-- C5 witness: `00EE` at `0x208` with `SP = 0` and `stack[0] = 0x300`. -/
theorem c5_ret_on_empty_stack_witness :
    stateRetEmpty.runOpcode =
      .ok { stateRetEmpty with PC := (stateRetEmpty.stack 0 + 2) % 65536, sp := 0xFFFF } :=
  c5_ret_on_empty_stack stateRetEmpty rfl rfl

/-! ## Undecoded opcodes -/

/-- An opcode that reaches a `default:` branch is printed and only moves `PC`. -/
theorem default_run (s : chip8) (h : reachesDefault s.opcode = true) :
    s.runOpcode = .ok { s with PC := u16 ((s.PC : Int) + 2),
                               out := s.out ++ [Msg.unknownOpcode s.opcode] } := by
  unfold reachesDefault at h
  split_ifs at h with h0 h8 hE hF
  · simp at h
    simp [chip8.runOpcode, chip8.dispatch, chip8.op0xxx, chip8.printUnknown, h0, h,
      bind, Except.bind, pure, Except.pure]
  · simp at h
    simp [chip8.runOpcode, chip8.dispatch, chip8.op8xxx, chip8.printUnknown, h8, h,
      bind, Except.bind, pure, Except.pure]
  · simp at h
    simp [chip8.runOpcode, chip8.dispatch, chip8.opExxx, chip8.printUnknown, hE, h,
      bind, Except.bind, pure, Except.pure]
  · simp at h
    simp [chip8.runOpcode, chip8.dispatch, chip8.opFxxx, chip8.printUnknown, hF, h,
      bind, Except.bind, pure, Except.pure]
  · simp at h
    simp [chip8.runOpcode, chip8.dispatch, chip8.printUnknown, h0, h8, hE, hF, h,
      bind, Except.bind, pure, Except.pure]

/-- The step `5XYN` for any low nibble `n`: the case of the dispatch does not
look at `n`. -/
theorem op5XYN_run (s : chip8) (x y n : Nat) (hx : x < 16) (hy : y < 16) (hn : n < 16)
    (hop : s.opcode = 0x5000 + 256 * x + 16 * y + n) (hpc : s.PC + 4 < 65536) :
    s.runOpcode = .ok { s with PC := if s.V x = s.V y then s.PC + 4 else s.PC + 2 } := by
  have h1 : s.opcode &&& 0xF000 = 0x5000 := by rw [and_F000]; omega
  have h3 : s.opcode / 256 % 16 = x := by omega
  have h4 : s.opcode / 16 % 16 = y := by omega
  have h5 : u16 ((s.PC : Int) + 2) = s.PC + 2 := u16_add_two (by omega)
  have h6 : u16 ((s.PC : Int) + 2 + 2) = s.PC + 4 := by unfold u16; omega
  by_cases hv : s.V x = s.V y
  · simp [chip8.runOpcode, chip8.dispatch, decode_x, decode_y, h1, h3, h4, chip8.op5XY0,
      chip8.rdV, hx, hy, hv, h5, h6, bind, Except.bind, pure, Except.pure]
  · simp [chip8.runOpcode, chip8.dispatch, decode_x, decode_y, h1, h3, h4, chip8.op5XY0,
      chip8.rdV, hx, hy, hv, h5, bind, Except.bind, pure, Except.pure]

/-- The step `9XYN` for any low nibble `n`. -/
theorem op9XYN_run (s : chip8) (x y n : Nat) (hx : x < 16) (hy : y < 16) (hn : n < 16)
    (hop : s.opcode = 0x9000 + 256 * x + 16 * y + n) (hpc : s.PC + 4 < 65536) :
    s.runOpcode = .ok { s with PC := if s.V x ≠ s.V y then s.PC + 4 else s.PC + 2 } := by
  have h1 : s.opcode &&& 0xF000 = 0x9000 := by rw [and_F000]; omega
  have h3 : s.opcode / 256 % 16 = x := by omega
  have h4 : s.opcode / 16 % 16 = y := by omega
  have h5 : u16 ((s.PC : Int) + 2) = s.PC + 2 := u16_add_two (by omega)
  have h6 : u16 ((s.PC : Int) + 2 + 2) = s.PC + 4 := by unfold u16; omega
  by_cases hv : s.V x = s.V y
  · simp [chip8.runOpcode, chip8.dispatch, decode_x, decode_y, h1, h3, h4, chip8.op9XY0,
      chip8.rdV, hx, hy, hv, h5, bind, Except.bind, pure, Except.pure]
  · simp [chip8.runOpcode, chip8.dispatch, decode_x, decode_y, h1, h3, h4, chip8.op9XY0,
      chip8.rdV, hx, hy, hv, h5, h6, bind, Except.bind, pure, Except.pure]

/-- Case selection for an opcode `0NNN`: only the low nibble is inspected. -/
theorem dispatch_0xxx (s : chip8) (x y : Nat) (hx : x < 16) (hy : y < 16) :
    (s.opcode = 256 * x + 16 * y + 0x0 → s.dispatch = s.op00E0) ∧
    (s.opcode = 256 * x + 16 * y + 0xE → s.dispatch = s.op00EE) := by
  constructor
  · intro hop
    have h1 : s.opcode &&& 0xF000 = 0x0000 := by rw [and_F000]; omega
    have h2 : s.opcode &&& 0x000F = 0 := by rw [and_000F]; omega
    simp [chip8.dispatch, chip8.op0xxx, h1, h2]
  · intro hop
    have h1 : s.opcode &&& 0xF000 = 0x0000 := by rw [and_F000]; omega
    have h2 : s.opcode &&& 0x000F = 0xE := by rw [and_000F]; omega
    simp [chip8.dispatch, chip8.op0xxx, h1, h2]

/-- Case selection for an opcode `EXKK`: only the low nibble is inspected. -/
theorem dispatch_Exxx (s : chip8) (x y : Nat) (hx : x < 16) (hy : y < 16) :
    (s.opcode = 0xE000 + 256 * x + 16 * y + 0xE → s.dispatch = s.opEX9E x) ∧
    (s.opcode = 0xE000 + 256 * x + 16 * y + 0x1 → s.dispatch = s.opEXA1 x) := by
  constructor
  · intro hop
    have h1 : s.opcode &&& 0xF000 = 0xE000 := by rw [and_F000]; omega
    have h2 : s.opcode &&& 0x000F = 0xE := by rw [and_000F]; omega
    have h3 : s.opcode / 256 % 16 = x := by omega
    simp [chip8.dispatch, chip8.opExxx, decode_x, h1, h2, h3]
  · intro hop
    have h1 : s.opcode &&& 0xF000 = 0xE000 := by rw [and_F000]; omega
    have h2 : s.opcode &&& 0x000F = 0x1 := by rw [and_000F]; omega
    have h3 : s.opcode / 256 % 16 = x := by omega
    simp [chip8.dispatch, chip8.opExxx, decode_x, h1, h2, h3]

set_option maxRecDepth 100000 in
/-- C6 as stated fails on the code, each opcode at `0x200`: `0x5011` with
`V[0] = V[1]` is executed as `SE V0, V1` and `0x9011` with `V[0] ≠ V[1]` as
`SNE V0, V1` (nothing is reported, `PC = 0x204`, not `0x202`); `0x0120` runs the
loops of `00E0`; `0x012E` returns like `00EE` to `stack[1] + 2`; `0xE0FE` with
key `V[0]` pressed skips like `EX9E`. -/
theorem c6_aliased_opcodes_counterexample :
    stateSE1.runOpcode = .ok { stateSE1 with PC := 0x204 } ∧
    stateSNE1.runOpcode = .ok { stateSNE1 with PC := 0x204 } ∧
    stateSys0.runOpcode = .error (.writeOutOfBounds .gfx 2048 0) ∧
    stateSysE.runOpcode = .ok { stateSysE with PC := 0x302, sp := 0 } ∧
    stateKeyFE.runOpcode = .ok { stateKeyFE with PC := 0x204 } := by
  exact ⟨rfl, rfl, rfl, rfl, rfl⟩

/-- C6, amended: the code has no `UnknownOpcode` failure.  An opcode that
reaches a `default:` branch of the dispatch (`0NNN` with low nibble neither 0
nor E, `8XYN` with `N` in 8..D or F, `EXKK` with low nibble neither E nor 1,
`FXKK` with `KK` not a listed case) is printed as unknown and mutates nothing
but `PC`, left at `a + 2`.  The dispatch ignores the low nibble of `5XYN` and
`9XYN`, which run as `SE`/`SNE` for every `N`, and looks only at the low nibble
of `0NNN` and `EXKK`, which select the cases `00E0`/`00EE` and `EX9E`/`EXA1`. -/
theorem c6_default_and_aliases (s : chip8) (x y n : Nat)
    (hx : x < 16) (hy : y < 16) (hn : n < 16) (hpc : s.PC + 4 < 65536) :
    (reachesDefault s.opcode = true →
      s.runOpcode = .ok { s with PC := s.PC + 2,
                                 out := s.out ++ [Msg.unknownOpcode s.opcode] }) ∧
    (s.opcode = 0x5000 + 256 * x + 16 * y + n →
      s.runOpcode = .ok { s with PC := if s.V x = s.V y then s.PC + 4 else s.PC + 2 }) ∧
    (s.opcode = 0x9000 + 256 * x + 16 * y + n →
      s.runOpcode = .ok { s with PC := if s.V x ≠ s.V y then s.PC + 4 else s.PC + 2 }) ∧
    (s.opcode = 256 * x + 16 * y + 0x0 → s.dispatch = s.op00E0) ∧
    (s.opcode = 256 * x + 16 * y + 0xE → s.dispatch = s.op00EE) ∧
    (s.opcode = 0xE000 + 256 * x + 16 * y + 0xE → s.dispatch = s.opEX9E x) ∧
    (s.opcode = 0xE000 + 256 * x + 16 * y + 0x1 → s.dispatch = s.opEXA1 x) := by
  refine ⟨fun h => ?_, fun h => op5XYN_run s x y n hx hy hn h hpc,
    fun h => op9XYN_run s x y n hx hy hn h hpc,
    (dispatch_0xxx s x y hx hy).1, (dispatch_0xxx s x y hx hy).2,
    (dispatch_Exxx s x y hx hy).1, (dispatch_Exxx s x y hx hy).2⟩
  rw [default_run s h, u16_add_two (by omega)]

/-- C6 witness: `0x0121` at `0x200` is printed as unknown and only moves `PC` to
`0x202`; `0x5011` with `V[0] = V[1]` skips to `0x204`. -/
theorem c6_default_and_aliases_witness :
    stateSys.runOpcode = .ok { stateSys with PC := stateSys.PC + 2,
                                             out := stateSys.out ++ [Msg.unknownOpcode 0x0121] } ∧
    stateSE1.runOpcode =
      .ok { stateSE1 with PC := if stateSE1.V 0 = stateSE1.V 1 then stateSE1.PC + 4
                                else stateSE1.PC + 2 } :=
  ⟨(c6_default_and_aliases stateSys 1 2 1 (by decide) (by decide) (by decide) (by decide)).1 rfl,
   (c6_default_and_aliases stateSE1 0 1 1 (by decide) (by decide) (by decide) (by decide)).2.1 rfl⟩

/-! ## 00E0 -/

set_option maxRecDepth 100000 in
/-- Every `00E0` stops at the first cell past the framebuffer: the loops run
`i < 64`, `j < 32` over the index `i*64+j`, which is 2048 at `i = 32`, `j = 0`. -/
theorem op00E0_faults (s : chip8) :
    s.op00E0 = .error (.writeOutOfBounds .gfx 2048 0) := by
  rfl

set_option maxRecDepth 100000 in
/-- C7, run on the code: on a fully lit screen `00E0` stops at the store into
`gfx[2048]`, outside the 2048-cell framebuffer.  The iterations before it
(`i < 32`) clear the cells `i*64+j` with `j < 32` only: the pixels of the
columns 32..63, such as index 32 (x = 32, y = 0) and index 2047, are still on. -/
theorem c7_cls_leaves_screen_and_overruns :
    stateLit.runOpcode = .error (.writeOutOfBounds .gfx 2048 0) ∧
    (forLoop 32 (fun i s => forLoop 32 (fun j s => s.wrGfx (i * 64 + j) 0) s)
        stateLit).toOption.map (fun t => (t.gfx 0, t.gfx 31, t.gfx 32, t.gfx 2015, t.gfx 2047))
      = some (0, 0, 1, 0, 1) := by
  exact ⟨rfl, rfl⟩

/-! ## DXYN -/

/-- Every `DXYN` stops at `V[16] = 0`, the clearing of the flag. -/
theorem opDXYN_faults (s : chip8) (x y n : Nat) (hx : x < 16) (hy : y < 16) (hn : n < 16)
    (hop : s.opcode = 0xD000 + 256 * x + 16 * y + n) :
    s.runOpcode = .error (.writeOutOfBounds .V 16 0) := by
  have h1 : s.opcode &&& 0xF000 = 0xD000 := by rw [and_F000]; omega
  have h3 : s.opcode / 256 % 16 = x := by omega
  have h4 : s.opcode / 16 % 16 = y := by omega
  simp [chip8.runOpcode, chip8.dispatch, decode_x, decode_y, h1, h3, h4, chip8.opDXYN,
    chip8.rdV, chip8.wrV, hx, hy, bind, Except.bind]

/-- C8, run on the code: `0xD011` with `V[0] = 63`, `V[1] = 31` and the sprite
byte `0xFF` stops at the store into `V[16]`.  The drawing loops themselves do
not clip: at (63, 31) they go on to read `gfx[2048]`, outside the framebuffer;
at (63, 0) the sprite bits of the columns 64..70 land in row 1 (indices
64..70); and a start column 64 is not reduced modulo 64 (the first bit lands on
index 64, not on index 0). -/
theorem c8_drw_does_not_clip :
    stateCorner.runOpcode = .error (.writeOutOfBounds .V 16 0) ∧
    chip8.drawSprite 63 31 1 stateCorner = .error (.readOutOfBounds .gfx 2048) ∧
    (chip8.drawSprite 63 0 1 stateCorner).toOption.map
        (fun t => (t.gfx 62, t.gfx 63, t.gfx 64, t.gfx 70, t.gfx 71)) = some (0, 1, 1, 1, 0) ∧
    (chip8.drawSprite 64 0 1 stateCorner).toOption.map
        (fun t => (t.gfx 0, t.gfx 64)) = some (0, 1) := by
  exact ⟨rfl, rfl, rfl, rfl⟩

/-- C9, run on the code: scenario S5.  `0xD011` on the clear screen stops at the
store `V[16] = 0` and draws nothing.  The drawing loops alone turn the pixels
`[0..8)` of row 0 on; run again on that screen they stop at the store of the
collision value 1 into `V[16]`. -/
theorem c9_drw_flag_written_to_V16 :
    stateSprite.runOpcode = .error (.writeOutOfBounds .V 16 0) ∧
    (chip8.drawSprite 0 0 1 stateSprite).toOption.map
        (fun t => (t.gfx 0, t.gfx 7, t.gfx 8, t.V 15)) = some (1, 1, 0, 0) ∧
    chip8.drawSprite 0 0 1 stateSpriteOn = .error (.writeOutOfBounds .V 16 1) := by
  exact ⟨rfl, rfl, rfl⟩

/-! ## FX55 and FX65 -/


theorem forLoop_zero {σ : Type} (body : Nat → σ → Except Fault σ) (s : σ) :
    forLoop 0 body s = .ok s := rfl

theorem forLoop_succ {σ : Type} (n : Nat) (body : Nat → σ → Except Fault σ) (s : σ) :
    forLoop (n + 1) body s = forLoop n body s >>= body n := by
  simp [forLoop, List.range_succ, List.foldlM_append]

/-- The loop of case `FX55` run `n` times stores `V[0..n)` at `memory[I..I+n)`. -/
theorem dump_loop (s : chip8) (n : Nat) (hn : n ≤ 16) (hI : s.I + n ≤ 4096) :
    forLoop n (fun i s => chip8.dumpReg i s) s =
      .ok { s with memory := fun j =>
              if s.I ≤ j ∧ j < s.I + n then u8 (s.V (j - s.I) : Int) else s.memory j } := by
  induction n with
  | zero =>
    rw [forLoop_zero]
    congr 1
    have : s.memory = fun j => if s.I ≤ j ∧ j < s.I + 0 then u8 (s.V (j - s.I) : Int)
        else s.memory j := by
      funext j
      have : ¬ (s.I ≤ j ∧ j < s.I + 0) := by omega
      rw [if_neg this]
    rw [← this]
  | succ k ih =>
    rw [forLoop_succ, ih (by omega) (by omega)]
    have hk : k < 16 := by omega
    have hm : s.I + k < 4096 := by omega
    simp only [chip8.dumpReg, chip8.rdV, chip8.wrMem, hk, hm, bind, Except.bind, if_true]
    congr 2
    funext j
    by_cases hj : j = s.I + k
    · subst hj
      have h1 : s.I ≤ s.I + k ∧ s.I + k < s.I + (k + 1) := by omega
      simp [h1]
    · have h1 : (s.I ≤ j ∧ j < s.I + (k + 1)) ↔ (s.I ≤ j ∧ j < s.I + k) := by omega
      simp [Function.update, hj, h1]

/-- The step `FX55`: the registers `V[0..x)` are stored, `V[x]` is not. -/
theorem opFX55_run (s : chip8) (x : Nat) (hx : x < 16) (hop : s.opcode = 0xF055 + 256 * x)
    (hI : s.I + x ≤ 4096) :
    s.runOpcode = .ok { s with
      memory := fun j => if s.I ≤ j ∧ j < s.I + x then u8 (s.V (j - s.I) : Int) else s.memory j,
      PC := u16 ((s.PC : Int) + 2) } := by
  have h1 : s.opcode &&& 0xF000 = 0xF000 := by rw [and_F000]; omega
  have h2 : s.opcode &&& 0x00FF = 0x55 := by rw [and_00FF]; omega
  have h3 : (s.opcode &&& 0x0F00) >>> 8 = x := by rw [nibble_x]; omega
  simp only [chip8.runOpcode, chip8.dispatch, h1, chip8.opFxxx, h2, chip8.opFX55, h3]
  simp [dump_loop s x (by omega) hI, bind, Except.bind, pure, Except.pure]

/-- The loop of case `FX65` run `n` times loads `V[0..n)` from `memory[I..I+n)`. -/
theorem fill_loop (s : chip8) (n : Nat) (hn : n ≤ 16) (hI : s.I + n ≤ 4096) :
    forLoop n (fun i s => chip8.fillReg i s) s =
      .ok { s with V := fun j =>
              if j < n then u8 (s.memory (s.I + j) : Int) else s.V j } := by
  induction n with
  | zero =>
    rw [forLoop_zero]
    congr 1
  | succ k ih =>
    rw [forLoop_succ, ih (by omega) (by omega)]
    have hk : k < 16 := by omega
    have hm : s.I + k < 4096 := by omega
    simp only [chip8.fillReg, chip8.rdMem, chip8.wrV, hk, hm, bind, Except.bind, if_true]
    congr 2
    funext j
    by_cases hj : j = k
    · subst hj
      simp
    · have h1 : j < k + 1 ↔ j < k := by omega
      simp [Function.update, hj, h1]

/-- The step `FX65`: the registers `V[0..x)` are loaded, `V[x]` is not. -/
theorem opFX65_run (s : chip8) (x : Nat) (hx : x < 16) (hop : s.opcode = 0xF065 + 256 * x)
    (hI : s.I + x ≤ 4096) :
    s.runOpcode = .ok { s with
      V := fun j => if j < x then u8 (s.memory (s.I + j) : Int) else s.V j,
      PC := u16 ((s.PC : Int) + 2) } := by
  have h1 : s.opcode &&& 0xF000 = 0xF000 := by rw [and_F000]; omega
  have h2 : s.opcode &&& 0x00FF = 0x65 := by rw [and_00FF]; omega
  have h3 : (s.opcode &&& 0x0F00) >>> 8 = x := by rw [nibble_x]; omega
  simp only [chip8.runOpcode, chip8.dispatch, h1, chip8.opFxxx, h2, chip8.opFX65, h3]
  simp [fill_loop s x (by omega) hI, bind, Except.bind, pure, Except.pure]


/-- C10, run on the code: `0xF155` with `V[0] = 0x11`, `V[1] = 0x22`, `I = 0x300`
writes `memory[0x300] = 0x11` and leaves `memory[0x301] = 0`: the loop stops
before `i = x`.  After the registers are overwritten, `0xF165` restores
`V[0] = 0x11` and leaves `V[1] = 0xAA`, not `0x22`. -/
theorem c10_dump_fill_exclude_Vx :
    stateDump.runOpcode =
      .ok { stateDump with memory := Function.update stateDump.memory 0x300 0x11,
                           PC := 0x202 } ∧
    Function.update stateDump.memory 0x300 0x11 0x301 = 0 ∧
    stateFill.runOpcode =
      .ok { stateFill with V := Function.update stateFill.V 0 0x11, PC := 0x204 } ∧
    Function.update stateFill.V 0 0x11 1 = 0xAA := by
  exact ⟨rfl, rfl, rfl, rfl⟩

/-! ## FX33 -/

/-- The step `FX33` when the three cells `I`, `I+1`, `I+2` are in memory. -/
theorem opFX33_run (s : chip8) (x : Nat) (hx : x < 16) (hop : s.opcode = 0xF033 + 256 * x)
    (hI : s.I + 2 < 4096) :
    s.runOpcode = .ok { s with
      memory := Function.update (Function.update (Function.update s.memory
        s.I (u8 ((s.V x / 100 : Nat) : Int)))
        (s.I + 1) (u8 ((s.V x / 10 % 10 : Nat) : Int)))
        (s.I + 2) (u8 ((s.V x % 100 % 10 : Nat) : Int)),
      PC := u16 ((s.PC : Int) + 2) } := by
  have h1 : s.opcode &&& 0xF000 = 0xF000 := by rw [and_F000]; omega
  have h2 : s.opcode &&& 0x00FF = 0x33 := by rw [and_00FF]; omega
  have h3 : s.opcode / 256 % 16 = x := by omega
  have h4 : s.I < 4096 := by omega
  have h5 : s.I + 1 < 4096 := by omega
  simp [chip8.runOpcode, chip8.dispatch, decode_x, h1, h2, h3, chip8.opFxxx, chip8.opFX33,
    chip8.rdV, chip8.wrMem, hx, hI, h4, h5, bind, Except.bind, pure, Except.pure]

/-- C11: for every byte `v = V[x]` and every `I` with `I + 2 <= 0xFFF`, the step
`FX33` succeeds and stores `memory[I] = v / 100`, `memory[I+1] = (v / 10) mod 10`
and `memory[I+2] = v mod 10`; each stored byte is a decimal digit and
`100*memory[I] + 10*memory[I+1] + memory[I+2] = v`. -/
theorem c11_bcd_digits (s : chip8) (x : Nat) (hx : x < 16)
    (hop : s.opcode = 0xF033 + 256 * x) (hv : s.V x < 256) (hI : s.I + 2 ≤ 0xFFF) :
    ∃ t, s.runOpcode = .ok t ∧
      t.memory s.I = s.V x / 100 ∧
      t.memory (s.I + 1) = s.V x / 10 % 10 ∧
      t.memory (s.I + 2) = s.V x % 10 ∧
      t.memory s.I ≤ 9 ∧ t.memory (s.I + 1) ≤ 9 ∧ t.memory (s.I + 2) ≤ 9 ∧
      100 * t.memory s.I + 10 * t.memory (s.I + 1) + t.memory (s.I + 2) = s.V x := by
  refine ⟨_, opFX33_run s x hx hop (by omega), ?_⟩
  have e1 : u8 ((s.V x / 100 : Nat) : Int) = s.V x / 100 := u8_of_lt (by omega)
  have e2 : u8 ((s.V x / 10 % 10 : Nat) : Int) = s.V x / 10 % 10 := u8_of_lt (by omega)
  have e3 : u8 ((s.V x % 100 % 10 : Nat) : Int) = s.V x % 10 := by
    rw [u8_of_lt (by omega)]; omega
  have n1 : s.I ≠ s.I + 1 := by omega
  have n2 : s.I ≠ s.I + 2 := by omega
  have n3 : s.I + 1 ≠ s.I + 2 := by omega
  simp only [e1, e2, e3, Function.update_same, Function.update_noteq n1, Function.update_noteq n2,
    Function.update_noteq n3, ne_eq, not_false_eq_true]
  refine ⟨trivial, trivial, trivial, ?_, ?_, ?_, ?_⟩ <;> omega

/-- C11 witness: scenario S6, `V[2] = 234` and `I = 0x300` give the bytes 2, 3, 4
at `0x300`, `0x301`, `0x302`. -/
theorem c11_bcd_digits_witness :
    ∃ t, stateBcd.runOpcode = .ok t ∧
      t.memory stateBcd.I = stateBcd.V 2 / 100 ∧
      t.memory (stateBcd.I + 1) = stateBcd.V 2 / 10 % 10 ∧
      t.memory (stateBcd.I + 2) = stateBcd.V 2 % 10 ∧
      t.memory stateBcd.I ≤ 9 ∧ t.memory (stateBcd.I + 1) ≤ 9 ∧ t.memory (stateBcd.I + 2) ≤ 9 ∧
      100 * t.memory stateBcd.I + 10 * t.memory (stateBcd.I + 1) + t.memory (stateBcd.I + 2)
        = stateBcd.V 2 :=
  c11_bcd_digits stateBcd 2 (by decide) rfl (by decide) (by decide)

/-! ## 1NNN -/

/-- C18: for every target `nnn` in `0..0xFFF` and every state, the step `1NNN`
succeeds and leaves `PC = nnn` exactly, also for `nnn = 0` and `nnn = 1` where
`nnn - 2` wraps around; nothing else changes. -/
theorem c18_jump_exact (s : chip8) (nnn : Nat) (hn : nnn < 4096)
    (hop : s.opcode = 0x1000 + nnn) :
    s.runOpcode = .ok { s with PC := nnn } := by
  have h1 : s.opcode &&& 0xF000 = 0x1000 := by rw [and_F000]; omega
  have h2 : s.opcode &&& 0xFFF = nnn := by rw [and_0FFF]; omega
  simp [chip8.runOpcode, chip8.dispatch, h1, h2, chip8.op1NNN, bind, Except.bind, pure,
    Except.pure, u16_sub_two_add_two (show nnn < 65536 by omega)]

/-- C18 witness: the jumps `0x1000` and `0x1001` end with `PC = 0` and `PC = 1`. -/
theorem c18_jump_exact_witness :
    stateJump0.runOpcode = .ok { stateJump0 with PC := 0 } ∧
    stateJump1.runOpcode = .ok { stateJump1 with PC := 1 } :=
  ⟨c18_jump_exact stateJump0 0 (by decide) rfl, c18_jump_exact stateJump1 1 (by decide) rfl⟩

/-! ## getOpcode -/

theorem shl8_or (a b : Nat) (hb : b < 256) : (a <<< 8) ||| b = 256 * a + b := by
  rw [Nat.shiftLeft_eq, Nat.mul_comm]
  exact (Nat.mul_add_lt_is_or (show b < 2 ^ 8 by omega) a).symm

/-- C19: for every state with `PC <= 0xFFE` (and byte-valued memory cells),
`getOpcode` succeeds with `opcode = 256 * memory[PC] + memory[PC + 1]`, a value
in `0..0xFFFF`, and changes nothing else. -/
theorem c19_fetch_big_endian (s : chip8) (hpc : s.PC ≤ 0xFFE)
    (hhi : s.memory s.PC < 256) (hlo : s.memory (s.PC + 1) < 256) :
    s.getOpcode = .ok { s with opcode := 256 * s.memory s.PC + s.memory (s.PC + 1) } ∧
    256 * s.memory s.PC + s.memory (s.PC + 1) ≤ 0xFFFF := by
  have h1 : s.PC < 4096 := by omega
  have h2 : s.PC + 1 < 4096 := by omega
  refine ⟨?_, by omega⟩
  simp only [chip8.getOpcode, chip8.rdMem, h1, h2, if_true, bind, Except.bind, pure, Except.pure]
  rw [shl8_or _ _ hlo, u16_of_lt (by omega)]

/-- C19 witness: the bytes `60 42` at `0x200` are fetched as `0x6042`. -/
theorem c19_fetch_big_endian_witness :
    stateFetch.getOpcode =
      .ok { stateFetch with opcode := 256 * stateFetch.memory stateFetch.PC
                                        + stateFetch.memory (stateFetch.PC + 1) } ∧
    256 * stateFetch.memory stateFetch.PC + stateFetch.memory (stateFetch.PC + 1) ≤ 0xFFFF :=
  c19_fetch_big_endian stateFetch (by decide) (by decide) (by decide)

/-! ## FX29 -/

/-- The step `FX29` changes nothing but `PC`: the case is empty. -/
theorem opFX29_run (s : chip8) (x : Nat) (hx : x < 16) (hop : s.opcode = 0xF029 + 256 * x) :
    s.runOpcode = .ok { s with PC := u16 ((s.PC : Int) + 2) } := by
  have h1 : s.opcode &&& 0xF000 = 0xF000 := by rw [and_F000]; omega
  have h2 : s.opcode &&& 0x00FF = 0x29 := by rw [and_00FF]; omega
  simp [chip8.runOpcode, chip8.dispatch, h1, h2, chip8.opFxxx, chip8.opFX29, bind, Except.bind,
    pure, Except.pure]

/-- C15, run on the code: `0xF029` with `V[0] = 1` and `I = 0x300` leaves
`I = 0x300`; the address `5` of the glyph of digit 1 is not loaded. -/
theorem c15_font_address_not_set :
    stateFont.runOpcode = .ok { stateFont with PC := 0x202 } ∧
    stateFont.I = 0x300 ∧ (stateFont.V 0 &&& 0x0F) * 5 = 5 := by
  exact ⟨rfl, rfl, rfl⟩

/-! ## FX0A -/

/-- C13, run on the code: `0xF00A` at `0x200` with no key pressed subtracts 2
from `PC` once per key, sixteen times, and ends with `PC = 0x1E2`, not `0x200`;
with key 3 pressed it sets `V[0] = 3` and ends with `PC = 0x1E4`, not `0x202`. -/
theorem c13_key_wait_moves_pc_back :
    stateWait.runOpcode = .ok { stateWait with PC := 0x1E2 } ∧
    stateWaitKey.runOpcode =
      .ok { stateWaitKey with V := Function.update stateWaitKey.V 0 3, PC := 0x1E4 } := by
  exact ⟨rfl, rfl⟩

/-! ## initialize -/

/-- A loop storing `f i` into `memory[i]` for `i < n`. -/
theorem wrMem_loop (s : chip8) (f : Nat → Nat) (n : Nat) (hn : n ≤ 4096) :
    forLoop n (fun i s => s.wrMem i (f i)) s =
      .ok { s with memory := fun j => if j < n then f j else s.memory j } := by
  induction n with
  | zero =>
    rw [forLoop_zero]
    congr 1
  | succ k ih =>
    rw [forLoop_succ, ih (by omega)]
    have hk : k < 4096 := by omega
    simp only [chip8.wrMem, hk, bind, Except.bind, if_true]
    congr 2
    funext j
    by_cases hj : j = k
    · subst hj
      simp
    · have h1 : j < k + 1 ↔ j < k := by omega
      simp [Function.update, hj, h1]

/-- A loop storing 0 into `stack[i]` for `i < n`. -/
theorem wrStack_loop (s : chip8) (n : Nat) (hn : n ≤ 16) :
    forLoop n (fun i s => s.wrStack i 0) s =
      .ok { s with stack := fun j => if j < n then 0 else s.stack j } := by
  induction n with
  | zero =>
    rw [forLoop_zero]
    congr 1
  | succ k ih =>
    rw [forLoop_succ, ih (by omega)]
    have hk : k < 16 := by omega
    simp only [chip8.wrStack, hk, bind, Except.bind, if_true]
    congr 2
    funext j
    by_cases hj : j = k
    · subst hj
      simp
    · have h1 : j < k + 1 ↔ j < k := by omega
      simp [Function.update, hj, h1]

/-- A loop storing 0 into `V[i]` for `i < n`. -/
theorem wrV_loop (s : chip8) (n : Nat) (hn : n ≤ 16) :
    forLoop n (fun i s => s.wrV i 0) s =
      .ok { s with V := fun j => if j < n then 0 else s.V j } := by
  induction n with
  | zero =>
    rw [forLoop_zero]
    congr 1
  | succ k ih =>
    rw [forLoop_succ, ih (by omega)]
    have hk : k < 16 := by omega
    simp only [chip8.wrV, hk, bind, Except.bind, if_true]
    congr 2
    funext j
    by_cases hj : j = k
    · subst hj
      simp
    · have h1 : j < k + 1 ↔ j < k := by omega
      simp [Function.update, hj, h1]


theorem ok_bind {α β : Type} (a : α) (f : α → Except Fault β) :
    (Except.ok a >>= f) = f a := rfl

theorem init_run (s : chip8) :
    s.init = .ok { s with
      PC := 0x200, opcode := 0, I := 0, sp := 0,
      stack := fun j => if j < 16 then 0 else s.stack j,
      V := fun j => if j < 16 then 0 else s.V j,
      memory := fun j => if j < 80 then chip8Fontset.getD j 0
                         else if j < 4096 then 0 else s.memory j,
      delayTimer := 0, soundTimer := 0 } := by
  unfold chip8.init
  dsimp only
  rw [wrStack_loop _ 16 (by omega), ok_bind]
  rw [wrV_loop _ 16 (by omega), ok_bind]
  rw [wrMem_loop _ (fun _ => 0) 4096 (by omega), ok_bind]
  rw [wrMem_loop _ (fun i => chip8Fontset.getD i 0) 80 (by omega), ok_bind]
  rfl

/-! ## What a step leaves alone: the stack pointer and the timers -/

set_option linter.unusedTactic false
set_option linter.unreachableTactic false

theorem bind_eq_ok {α β : Type} {a : Except Fault α} {f : α → Except Fault β} {t : β}
    (h : (a >>= f) = .ok t) : ∃ x, a = .ok x ∧ f x = .ok t := by
  cases a with
  | error e => cases h
  | ok x => exact ⟨x, rfl, h⟩

theorem counters_of_map {a : Except Fault chip8} {c : Nat × Nat × Nat}
    (h : a.map counters = a.map (fun _ => c)) {t : chip8} (ht : a = .ok t) :
    counters t = c := by
  subst ht
  exact Except.ok.inj h

theorem map_of_counters {a : Except Fault chip8} {c : Nat × Nat × Nat}
    (h : ∀ t, a = .ok t → counters t = c) :
    a.map counters = a.map (fun _ => c) := by
  cases a with
  | error e => rfl
  | ok t => exact congrArg Except.ok (h t rfl)

/-- A property kept by every iteration is kept by the loop. -/
theorem forLoop_inv {σ : Type} (P : σ → Prop) (body : Nat → σ → Except Fault σ)
    (hb : ∀ i s t, P s → body i s = .ok t → P t) :
    ∀ n s t, P s → forLoop n body s = .ok t → P t := by
  intro n
  induction n with
  | zero =>
    intro s t hs h
    rw [forLoop_zero] at h
    cases h
    exact hs
  | succ k ih =>
    intro s t hs h
    rw [forLoop_succ] at h
    obtain ⟨u, hu, hbody⟩ := bind_eq_ok h
    exact hb k u t (ih s u hs hu) hbody

theorem keyScan_keeps (x i : Nat) (s : chip8) :
    (chip8.keyScan x i s).map counters = (chip8.keyScan x i s).map (fun _ => counters s) := by
  simp only [chip8.keyScan, chip8.rdKey, chip8.wrV, bind, Except.bind, pure, Except.pure]
  repeat' (first | rfl | omega | split_ifs | (simp only []))

theorem opFX0A_keeps (s : chip8) (x : Nat) :
    (s.opFX0A x).map counters = (s.opFX0A x).map (fun _ => counters s) := by
  apply map_of_counters
  intro t ht
  exact forLoop_inv (fun u => counters u = counters s) _
    (fun i u v hu hv => (counters_of_map (keyScan_keeps x i u) hv).trans hu) 16 s t rfl ht

theorem dumpReg_keeps (i : Nat) (s : chip8) :
    (chip8.dumpReg i s).map counters = (chip8.dumpReg i s).map (fun _ => counters s) := by
  simp only [chip8.dumpReg, chip8.rdV, chip8.wrMem, bind, Except.bind, pure, Except.pure]
  repeat' (first | rfl | omega | split_ifs | (simp only []))

theorem opFX55_keeps (s : chip8) :
    s.opFX55.map counters = s.opFX55.map (fun _ => counters s) := by
  apply map_of_counters
  intro t ht
  exact forLoop_inv (fun u => counters u = counters s) _
    (fun i u v hu hv => (counters_of_map (dumpReg_keeps i u) hv).trans hu) _ s t rfl ht

theorem fillReg_keeps (i : Nat) (s : chip8) :
    (chip8.fillReg i s).map counters = (chip8.fillReg i s).map (fun _ => counters s) := by
  simp only [chip8.fillReg, chip8.rdMem, chip8.wrV, bind, Except.bind, pure, Except.pure]
  repeat' (first | rfl | omega | split_ifs | (simp only []))

theorem opFX65_keeps (s : chip8) :
    s.opFX65.map counters = s.opFX65.map (fun _ => counters s) := by
  apply map_of_counters
  intro t ht
  exact forLoop_inv (fun u => counters u = counters s) _
    (fun i u v hu hv => (counters_of_map (fillReg_keeps i u) hv).trans hu) _ s t rfl ht

theorem opDXYN_keeps (s : chip8) (x y : Nat) :
    (s.opDXYN x y).map counters = (s.opDXYN x y).map (fun _ => counters s) := by
  simp only [chip8.opDXYN, chip8.rdV, chip8.wrV, bind, Except.bind, pure, Except.pure]
  repeat' (first | rfl | omega | split_ifs | (simp only []))

theorem op00E0_keeps (s : chip8) :
    s.op00E0.map counters = s.op00E0.map (fun _ => counters s) := by
  rw [op00E0_faults]
  rfl

theorem op0xxx_keeps (s : chip8) (hret : s.opcode &&& 0x000F ≠ 0x000E) :
    s.op0xxx.map counters = s.op0xxx.map (fun _ => counters s) := by
  unfold chip8.op0xxx
  split_ifs
  · exact op00E0_keeps s
  · rfl

theorem op8xxx_keeps (s : chip8) (x y : Nat) :
    (s.op8xxx x y).map counters = (s.op8xxx x y).map (fun _ => counters s) := by
  unfold chip8.op8xxx
  split_ifs
  all_goals
    (simp only [chip8.op8XY0, chip8.op8XY1, chip8.op8XY2, chip8.op8XY3, chip8.op8XY4,
        chip8.op8XY5, chip8.op8XY6, chip8.op8XY7, chip8.op8XYE, chip8.printUnknown,
        chip8.rdV, chip8.wrV, bind, Except.bind, pure, Except.pure]
     repeat' (first | rfl | omega | split_ifs | (simp only [])))

theorem opExxx_keeps (s : chip8) (x : Nat) :
    (s.opExxx x).map counters = (s.opExxx x).map (fun _ => counters s) := by
  unfold chip8.opExxx
  split_ifs
  all_goals
    (simp only [chip8.opEX9E, chip8.opEXA1, chip8.printUnknown,
        chip8.rdV, chip8.rdKey, bind, Except.bind, pure, Except.pure]
     repeat' (first | rfl | omega | split_ifs | (simp only [])))

theorem opFxxx_keeps (s : chip8) (x : Nat)
    (h15 : s.opcode &&& 0x00FF ≠ 0x0015) (h18 : s.opcode &&& 0x00FF ≠ 0x0018) :
    (s.opFxxx x).map counters = (s.opFxxx x).map (fun _ => counters s) := by
  unfold chip8.opFxxx
  split_ifs
  all_goals first
    | exact opFX0A_keeps s _
    | exact opFX55_keeps s
    | exact opFX65_keeps s
    | (simp only [chip8.opFX07, chip8.opFX1E, chip8.opFX29, chip8.opFX33, chip8.printUnknown,
        chip8.rdV, chip8.wrV, chip8.wrMem, bind, Except.bind, pure, Except.pure]
       repeat' (first | rfl | omega | split_ifs | (simp only [])))

theorem op3XNN_keeps (s : chip8) (x : Nat) :
    (s.op3XNN x).map counters = (s.op3XNN x).map (fun _ => counters s) := by
  simp only [chip8.op3XNN, chip8.rdV, bind, Except.bind, pure, Except.pure]
  repeat' (first | rfl | omega | split_ifs | (simp only []))

theorem op4XNN_keeps (s : chip8) (x : Nat) :
    (s.op4XNN x).map counters = (s.op4XNN x).map (fun _ => counters s) := by
  simp only [chip8.op4XNN, chip8.rdV, bind, Except.bind, pure, Except.pure]
  repeat' (first | rfl | omega | split_ifs | (simp only []))

theorem op5XY0_keeps (s : chip8) (x y : Nat) :
    (s.op5XY0 x y).map counters = (s.op5XY0 x y).map (fun _ => counters s) := by
  simp only [chip8.op5XY0, chip8.rdV, bind, Except.bind, pure, Except.pure]
  repeat' (first | rfl | omega | split_ifs | (simp only []))

theorem op6XNN_keeps (s : chip8) (x : Nat) :
    (s.op6XNN x).map counters = (s.op6XNN x).map (fun _ => counters s) := by
  simp only [chip8.op6XNN, chip8.wrV, bind, Except.bind, pure, Except.pure]
  repeat' (first | rfl | omega | split_ifs | (simp only []))

theorem op7XNN_keeps (s : chip8) (x : Nat) :
    (s.op7XNN x).map counters = (s.op7XNN x).map (fun _ => counters s) := by
  simp only [chip8.op7XNN, chip8.rdV, chip8.wrV, bind, Except.bind, pure, Except.pure]
  repeat' (first | rfl | omega | split_ifs | (simp only []))

theorem op9XY0_keeps (s : chip8) (x y : Nat) :
    (s.op9XY0 x y).map counters = (s.op9XY0 x y).map (fun _ => counters s) := by
  simp only [chip8.op9XY0, chip8.rdV, bind, Except.bind, pure, Except.pure]
  repeat' (first | rfl | omega | split_ifs | (simp only []))

theorem opBNNN_keeps (s : chip8) :
    s.opBNNN.map counters = s.opBNNN.map (fun _ => counters s) := by
  simp only [chip8.opBNNN, chip8.rdV, bind, Except.bind, pure, Except.pure]
  repeat' (first | rfl | omega | split_ifs | (simp only []))

theorem opCXNN_keeps (s : chip8) (x : Nat) :
    (s.opCXNN x).map counters = (s.opCXNN x).map (fun _ => counters s) := by
  simp only [chip8.opCXNN, chip8.wrV, bind, Except.bind, pure, Except.pure]
  repeat' (first | rfl | omega | split_ifs | (simp only []))

/-- Apart from `2NNN`, the opcodes `0NNN` with low nibble E, `FX15` and `FX18`,
no case of the dispatch changes the stack pointer or a timer. -/
theorem dispatch_keeps (s : chip8)
    (hcall : s.opcode &&& 0xF000 ≠ 0x2000)
    (hret : ¬ (s.opcode &&& 0xF000 = 0x0000 ∧ s.opcode &&& 0x000F = 0x000E))
    (h15 : ¬ (s.opcode &&& 0xF000 = 0xF000 ∧ s.opcode &&& 0x00FF = 0x0015))
    (h18 : ¬ (s.opcode &&& 0xF000 = 0xF000 ∧ s.opcode &&& 0x00FF = 0x0018)) :
    s.dispatch.map counters = s.dispatch.map (fun _ => counters s) := by
  have hk := and_F000 s.opcode
  have hlt : s.opcode / 4096 % 16 < 16 := Nat.mod_lt _ (by decide)
  generalize s.opcode / 4096 % 16 = k at hk hlt
  interval_cases k <;> simp only [Nat.reduceMul] at hk <;> simp only [chip8.dispatch, hk]
  · exact op0xxx_keeps s (fun h => hret ⟨hk, h⟩)
  · rfl
  · exact absurd hk hcall
  · exact op3XNN_keeps s _
  · exact op4XNN_keeps s _
  · exact op5XY0_keeps s _ _
  · exact op6XNN_keeps s _
  · exact op7XNN_keeps s _
  · exact op8xxx_keeps s _ _
  · exact op9XY0_keeps s _ _
  · rfl
  · exact opBNNN_keeps s
  · exact opCXNN_keeps s _
  · exact opDXYN_keeps s _ _
  · exact opExxx_keeps s _
  · exact opFxxx_keeps s _ (fun h => h15 ⟨hk, h⟩) (fun h => h18 ⟨hk, h⟩)

theorem dispatch_call (s : chip8) (h : s.opcode &&& 0xF000 = 0x2000) :
    s.dispatch = s.op2NNN := by
  simp only [chip8.dispatch, h]
  rfl

theorem dispatch_ret (s : chip8) (h0 : s.opcode &&& 0xF000 = 0x0000)
    (hE : s.opcode &&& 0x000F = 0x000E) : s.dispatch = s.op00EE := by
  simp only [chip8.dispatch, chip8.op0xxx, h0, hE]
  rfl

theorem dispatch_FX15 (s : chip8) (hF : s.opcode &&& 0xF000 = 0xF000)
    (h : s.opcode &&& 0x00FF = 0x0015) :
    s.dispatch = s.opFX15 (u16 (((s.opcode &&& 0x0F00) >>> 8 : Nat) : Int)) := by
  simp only [chip8.dispatch, chip8.opFxxx, hF, h]
  rfl

theorem dispatch_FX18 (s : chip8) (hF : s.opcode &&& 0xF000 = 0xF000)
    (h : s.opcode &&& 0x00FF = 0x0018) :
    s.dispatch = s.opFX18 (u16 (((s.opcode &&& 0x0F00) >>> 8 : Nat) : Int)) := by
  simp only [chip8.dispatch, chip8.opFxxx, hF, h]
  rfl

/-- A completed `2NNN` leaves the timers alone and the stack pointer, one more
than before, inside the stack. -/
theorem op2NNN_counters {s t : chip8} (h : s.op2NNN = .ok t) :
    t.delayTimer = s.delayTimer ∧ t.soundTimer = s.soundTimer ∧ t.sp < 16 := by
  unfold chip8.op2NNN chip8.wrStack at h
  simp only [bind, Except.bind, pure, Except.pure] at h
  split_ifs at h with hlt
  cases h
  exact ⟨rfl, rfl, hlt⟩

/-- The statement `sp++` of case `2NNN`: a completed call leaves the stack
pointer one more than before, modulo `2^16`. -/
theorem op2NNN_sp {s t : chip8} (h : s.op2NNN = .ok t) :
    t.sp = u16 ((s.sp : Int) + 1) := by
  unfold chip8.op2NNN chip8.wrStack at h
  simp only [bind, Except.bind, pure, Except.pure] at h
  split_ifs at h with hlt
  cases h
  rfl

/-- A completed `00EE` leaves the timers alone and decrements the stack pointer
modulo `2^16`. -/
theorem op00EE_counters {s t : chip8} (h : s.op00EE = .ok t) :
    t.delayTimer = s.delayTimer ∧ t.soundTimer = s.soundTimer ∧ s.sp < 16 ∧
      t.sp = u16 ((s.sp : Int) - 1) := by
  unfold chip8.op00EE chip8.rdStack at h
  simp only [bind, Except.bind, pure, Except.pure] at h
  split_ifs at h with hlt
  cases h
  exact ⟨rfl, rfl, hlt, rfl⟩

theorem opFX15_counters {s t : chip8} {x : Nat} (h : s.opFX15 x = .ok t) :
    t.sp = s.sp ∧ t.soundTimer = s.soundTimer := by
  unfold chip8.opFX15 chip8.rdV at h
  simp only [bind, Except.bind, pure, Except.pure] at h
  split_ifs at h
  cases h
  exact ⟨rfl, rfl⟩

theorem opFX18_counters {s t : chip8} {x : Nat} (h : s.opFX18 x = .ok t) :
    t.sp = s.sp ∧ t.delayTimer = s.delayTimer := by
  unfold chip8.opFX18 chip8.rdV at h
  simp only [bind, Except.bind, pure, Except.pure] at h
  split_ifs at h
  cases h
  exact ⟨rfl, rfl⟩

/-- `runOpcode` is the dispatch followed by `PC += 2`. -/
theorem runOpcode_eq_ok {s t : chip8} (h : s.runOpcode = .ok t) :
    ∃ u, s.dispatch = .ok u ∧ t = { u with PC := u16 ((u.PC : Int) + 2) } := by
  unfold chip8.runOpcode at h
  obtain ⟨u, hu, ht⟩ := bind_eq_ok h
  exact ⟨u, hu, (Except.ok.inj ht).symm⟩

/-- The execute part of a cycle changes `delayTimer` only in case `FX15`. -/
theorem runOpcode_delayTimer {s t : chip8} (h : s.runOpcode = .ok t)
    (h15 : ¬ (s.opcode &&& 0xF000 = 0xF000 ∧ s.opcode &&& 0x00FF = 0x0015)) :
    t.delayTimer = s.delayTimer := by
  obtain ⟨u, hu, rfl⟩ := runOpcode_eq_ok h
  show u.delayTimer = s.delayTimer
  by_cases hcall : s.opcode &&& 0xF000 = 0x2000
  · rw [dispatch_call s hcall] at hu
    exact (op2NNN_counters hu).1
  by_cases hret : s.opcode &&& 0xF000 = 0x0000 ∧ s.opcode &&& 0x000F = 0x000E
  · rw [dispatch_ret s hret.1 hret.2] at hu
    exact (op00EE_counters hu).1
  by_cases h18 : s.opcode &&& 0xF000 = 0xF000 ∧ s.opcode &&& 0x00FF = 0x0018
  · rw [dispatch_FX18 s h18.1 h18.2] at hu
    exact (opFX18_counters hu).2
  · have hc := counters_of_map (dispatch_keeps s hcall hret h15 h18) hu
    exact congrArg (fun c => c.2.1) hc

/-- The execute part of a cycle changes `soundTimer` only in case `FX18`. -/
theorem runOpcode_soundTimer {s t : chip8} (h : s.runOpcode = .ok t)
    (h18 : ¬ (s.opcode &&& 0xF000 = 0xF000 ∧ s.opcode &&& 0x00FF = 0x0018)) :
    t.soundTimer = s.soundTimer := by
  obtain ⟨u, hu, rfl⟩ := runOpcode_eq_ok h
  show u.soundTimer = s.soundTimer
  by_cases hcall : s.opcode &&& 0xF000 = 0x2000
  · rw [dispatch_call s hcall] at hu
    exact (op2NNN_counters hu).2.1
  by_cases hret : s.opcode &&& 0xF000 = 0x0000 ∧ s.opcode &&& 0x000F = 0x000E
  · rw [dispatch_ret s hret.1 hret.2] at hu
    exact (op00EE_counters hu).2.1
  by_cases h15 : s.opcode &&& 0xF000 = 0xF000 ∧ s.opcode &&& 0x00FF = 0x0015
  · rw [dispatch_FX15 s h15.1 h15.2] at hu
    exact (opFX15_counters hu).2
  · have hc := counters_of_map (dispatch_keeps s hcall hret h15 h18) hu
    exact congrArg (fun c => c.2.2) hc

/-- The stack pointer after the execute part of a cycle. -/
theorem runOpcode_sp {s t : chip8} (h : s.runOpcode = .ok t) :
    (s.opcode &&& 0xF000 = 0x2000 ∧ t.sp = u16 ((s.sp : Int) + 1)) ∨
    (s.opcode &&& 0xF000 = 0x0000 ∧ s.opcode &&& 0x000F = 0x000E ∧ s.sp < 16 ∧
      t.sp = u16 ((s.sp : Int) - 1)) ∨
    t.sp = s.sp := by
  obtain ⟨u, hu, rfl⟩ := runOpcode_eq_ok h
  show (_ ∧ u.sp = _) ∨ (_ ∧ _ ∧ _ ∧ u.sp = _) ∨ u.sp = s.sp
  by_cases hcall : s.opcode &&& 0xF000 = 0x2000
  · rw [dispatch_call s hcall] at hu
    exact Or.inl ⟨hcall, op2NNN_sp hu⟩
  by_cases hret : s.opcode &&& 0xF000 = 0x0000 ∧ s.opcode &&& 0x000F = 0x000E
  · rw [dispatch_ret s hret.1 hret.2] at hu
    exact Or.inr (Or.inl ⟨hret.1, hret.2, (op00EE_counters hu).2.2⟩)
  by_cases h15 : s.opcode &&& 0xF000 = 0xF000 ∧ s.opcode &&& 0x00FF = 0x0015
  · rw [dispatch_FX15 s h15.1 h15.2] at hu
    exact Or.inr (Or.inr (opFX15_counters hu).1)
  by_cases h18 : s.opcode &&& 0xF000 = 0xF000 ∧ s.opcode &&& 0x00FF = 0x0018
  · rw [dispatch_FX18 s h18.1 h18.2] at hu
    exact Or.inr (Or.inr (opFX18_counters hu).1)
  · have hc := counters_of_map (dispatch_keeps s hcall hret h15 h18) hu
    exact Or.inr (Or.inr (congrArg (fun c => c.1) hc))

/-- `getOpcode` assigns `opcode` only. -/
theorem getOpcode_eq_ok {s t : chip8} (h : s.getOpcode = .ok t) :
    ∃ op, t = { s with opcode := op } := by
  unfold chip8.getOpcode chip8.rdMem at h
  simp only [bind, Except.bind, pure, Except.pure] at h
  split_ifs at h
  cases h
  exact ⟨_, rfl⟩

/-- `emulateCycle` is fetch, execute, timer update. -/
theorem emulateCycle_eq_ok {s t : chip8} (h : s.emulateCycle = .ok t) :
    ∃ s1 s2, s.getOpcode = .ok s1 ∧ s1.runOpcode = .ok s2 ∧ t = s2.updateTimers := by
  unfold chip8.emulateCycle at h
  obtain ⟨s1, h1, h'⟩ := bind_eq_ok h
  obtain ⟨s2, h2, h''⟩ := bind_eq_ok h'
  exact ⟨s1, s2, h1, h2, (Except.ok.inj h'').symm⟩

/-- The timer update: each timer is decremented unless it is zero. -/
theorem updateTimers_run (u : chip8) (hd : u.delayTimer < 256) (hs : u.soundTimer < 256) :
    u.updateTimers.delayTimer = u.delayTimer - 1 ∧
    u.updateTimers.soundTimer = u.soundTimer - 1 ∧
    u.updateTimers.sp = u.sp := by
  have e1 : u8 ((u.delayTimer : Int) - 1) = u.delayTimer - 1 ∨ u.delayTimer = 0 := by
    unfold u8; omega
  have e2 : u8 ((u.soundTimer : Int) - 1) = u.soundTimer - 1 ∨ u.soundTimer = 0 := by
    unfold u8; omega
  unfold chip8.updateTimers
  dsimp only
  split_ifs <;> (try dsimp only at *) <;> refine ⟨?_, ?_, ?_⟩ <;> first | rfl | omega

/-! ## Reset -/

/-- C12 as stated fails on the code: run on a machine with every pixel on,
every key pressed and `drawFlag` set, `initialize` leaves pixel 0 on, key 0
pressed and `drawFlag` set. -/
theorem c12_reset_keeps_screen_keys_counterexample :
    ∃ t, stateDirty.init = .ok t ∧ t.gfx 0 = 1 ∧ t.key 0 = 1 ∧ t.drawFlag = true :=
  ⟨_, init_run stateDirty, rfl, rfl, rfl⟩

/-- C12, amended: starting from any state, `initialize` succeeds and leaves
`PC = 0x200`, `I = 0`, `SP = 0`, both timers 0, every `V` register and every
stack slot 0, `memory[0x000..0x050)` equal to the 80-byte font of `CHIP8.hpp`
(glyph `d` at address `d*5`) and `memory[0x050..0x1000)` all zero; the keys and
`drawFlag` are not assigned and keep their values. -/
theorem c12_reset_state (s : chip8) :
    ∃ t, s.init = .ok t ∧ t.PC = 0x200 ∧ t.I = 0 ∧ t.sp = 0 ∧
      t.delayTimer = 0 ∧ t.soundTimer = 0 ∧
      (∀ i, i < 16 → t.V i = 0) ∧ (∀ i, i < 16 → t.stack i = 0) ∧
      chip8Fontset.length = 80 ∧
      (∀ d r, d < 16 → r < 5 → t.memory (d * 5 + r) = chip8Fontset.getD (d * 5 + r) 0) ∧
      (∀ i, 0x050 ≤ i → i < 0x1000 → t.memory i = 0) ∧
      t.key = s.key ∧ t.drawFlag = s.drawFlag := by
  refine ⟨_, init_run s, rfl, rfl, rfl, rfl, rfl, ?_, ?_, rfl, ?_, ?_, rfl, rfl⟩
  · intro i hi
    show (if i < 16 then 0 else s.V i) = 0
    rw [if_pos hi]
  · intro i hi
    show (if i < 16 then 0 else s.stack i) = 0
    rw [if_pos hi]
  · intro d r hd hr
    have h : d * 5 + r < 80 := by omega
    show (if d * 5 + r < 80 then chip8Fontset.getD (d * 5 + r) 0
      else if d * 5 + r < 4096 then 0 else s.memory (d * 5 + r)) = _
    rw [if_pos h]
  · intro i h1 h2
    have h : ¬ i < 80 := by omega
    have h' : i < 4096 := by omega
    show (if i < 80 then chip8Fontset.getD i 0 else if i < 4096 then 0 else s.memory i) = 0
    rw [if_neg h, if_pos h']

/-! ## Timers -/

/-- C14 as stated fails on the code: one `emulateCycle` running `60 FF` with
`delayTimer = 5` and `soundTimer = 1` ends with `delayTimer = 4`,
`soundTimer = 0` and a beep printed. -/
theorem c14_cycle_ticks_counterexample :
    stateTick.emulateCycle =
      .ok { stateTick with opcode := 0x60FF, PC := 0x202,
                           V := Function.update stateTick.V 0 0xFF,
                           delayTimer := 4, soundTimer := 0, out := [Msg.beep] } := by
  rfl

/-- C14, amended: `emulateCycle` advances the timers.  For every state (with
byte-valued timers) whose fetched opcode is neither `FX15` nor `FX18`, a
completed cycle leaves each timer one less than before the cycle if it was
non-zero and 0 if it was 0; a timer keeps its value only when it was 0. -/
theorem c14_cycle_advances_timers (s s1 t : chip8)
    (hd : s.delayTimer < 256) (hs : s.soundTimer < 256)
    (hf : s.getOpcode = .ok s1) (hc : s.emulateCycle = .ok t)
    (h15 : ¬ (s1.opcode &&& 0xF000 = 0xF000 ∧ s1.opcode &&& 0x00FF = 0x0015))
    (h18 : ¬ (s1.opcode &&& 0xF000 = 0xF000 ∧ s1.opcode &&& 0x00FF = 0x0018)) :
    t.delayTimer = s.delayTimer - 1 ∧ t.soundTimer = s.soundTimer - 1 ∧
    (t.delayTimer = s.delayTimer ↔ s.delayTimer = 0) ∧
    (t.soundTimer = s.soundTimer ↔ s.soundTimer = 0) := by
  obtain ⟨s1', s2, h1, h2, rfl⟩ := emulateCycle_eq_ok hc
  rw [hf] at h1
  cases h1
  obtain ⟨op, rfl⟩ := getOpcode_eq_ok hf
  have hd2 := runOpcode_delayTimer h2 h15
  have hs2 := runOpcode_soundTimer h2 h18
  have hd2' : s2.delayTimer = s.delayTimer := hd2
  have hs2' : s2.soundTimer = s.soundTimer := hs2
  have hu := updateTimers_run s2 (by omega) (by omega)
  rw [hd2', hs2'] at hu
  refine ⟨hu.1, hu.2.1, ?_, ?_⟩
  · rw [hu.1]; omega
  · rw [hu.2.1]; omega

/-- C14 witness: the cycle of `stateTick`, which fetches `0x60FF`. -/
theorem c14_cycle_advances_timers_witness :
    stateTickRun.updateTimers.delayTimer = stateTick.delayTimer - 1 ∧
    stateTickRun.updateTimers.soundTimer = stateTick.soundTimer - 1 ∧
    (stateTickRun.updateTimers.delayTimer = stateTick.delayTimer ↔ stateTick.delayTimer = 0) ∧
    (stateTickRun.updateTimers.soundTimer = stateTick.soundTimer ↔ stateTick.soundTimer = 0) :=
  c14_cycle_advances_timers stateTick stateTickFetched stateTickRun.updateTimers
    (by decide) (by decide) rfl rfl (by decide) (by decide)

theorem updateTimers_sp (u : chip8) : u.updateTimers.sp = u.sp := by
  unfold chip8.updateTimers
  dsimp only
  split_ifs <;> rfl

/-- One cycle from a stack pointer of at most 15 that runs neither a return on
the empty stack nor a call on the full stack leaves the stack pointer at most
15: a call adds 1 to a value of at most 14, a return subtracts 1 from a value
of at least 1, every other opcode keeps it. -/
theorem emulateCycle_sp {s t : chip8} (hsp : s.sp ≤ 15) (hc : s.emulateCycle = .ok t)
    (hg : returnsOnEmptyStack s = false) (hf : callsOnFullStack s = false) : t.sp ≤ 15 := by
  obtain ⟨s1, s2, h1, h2, rfl⟩ := emulateCycle_eq_ok hc
  rw [updateTimers_sp]
  unfold returnsOnEmptyStack at hg
  unfold callsOnFullStack at hf
  rw [h1] at hg hf
  simp only [decide_eq_false_iff_not] at hg hf
  obtain ⟨op, rfl⟩ := getOpcode_eq_ok h1
  rcases runOpcode_sp h2 with ⟨h2000, heq⟩ | ⟨h0, hE, hlt, heq⟩ | heq
  · have hlt : s.sp < 15 := by
      by_contra hge
      exact hf ⟨by omega, h2000⟩
    have hs2 : s2.sp = u16 ((s.sp : Int) + 1) := heq
    rw [hs2]
    unfold u16
    omega
  · have hne : s.sp ≠ 0 := fun h => hg ⟨h, h0, hE⟩
    have hs2 : s2.sp = u16 ((s.sp : Int) - 1) := heq
    rw [hs2]
    unfold u16
    omega
  · have hs2 : s2.sp = s.sp := heq
    omega

/-- A cycle that runs a return on the empty stack wraps the stack pointer. -/
theorem emulateCycle_sp_wraps {s t : chip8} (hc : s.emulateCycle = .ok t)
    (hg : returnsOnEmptyStack s = true) : t.sp = 0xFFFF := by
  obtain ⟨s1, s2, h1, h2, rfl⟩ := emulateCycle_eq_ok hc
  rw [updateTimers_sp]
  unfold returnsOnEmptyStack at hg
  rw [h1] at hg
  simp only [decide_eq_true_eq] at hg
  obtain ⟨hz, h0, hE⟩ := hg
  obtain ⟨u, hu, rfl⟩ := runOpcode_eq_ok h2
  rw [dispatch_ret s1 h0 hE] at hu
  obtain ⟨op, rfl⟩ := getOpcode_eq_ok h1
  have h := (op00EE_counters hu).2.2.2
  have h' : u.sp = u16 ((s.sp : Int) - 1) := h
  show u.sp = 0xFFFF
  rw [h', hz]
  rfl

/-- C16 as stated fails on the code: from the reset state with the bytes
`00 EE` at `0x200` (only `memory[0x201]` differs from the reset memory), one
cycle returns on the empty stack and ends with `SP = 0xFFFF`.  And the cycle
that runs the call `22 06` at `0x200` with `SP = 15` increments `SP` to 16 and
stores into `stack[16]`, outside the 16 slots of the stack. -/
theorem c16_sp_wraps_after_reset_counterexample :
    (∃ r, zeroState.init = .ok r ∧ r.sp = 0 ∧ r.PC = 0x200 ∧
      ({ r with memory := Function.update r.memory 0x201 0xEE } : chip8).emulateCycle.toOption.map
        (fun t => t.sp) = some 0xFFFF) ∧
    stateS4Deep.emulateCycle = .error (.writeOutOfBounds .stack 16 0x200) :=
  ⟨⟨_, init_run zeroState, rfl, rfl, rfl⟩, rfl⟩

/-- C16, amended: the stack pointer is not kept in `0..16` on every run, since
a return executed with `SP == 0` (any fetched opcode `0NNN` with low nibble E)
wraps it to `0xFFFF`.  Starting from any state with `SP <= 15`, such as the
reset state, for every memory content and every number `n` of cycles that
index no array out of bounds and of which none runs a return with `SP == 0` or
a call with `SP >= 15`, `SP <= 15` holds after the `n` cycles.  Within these
conditions every call and every return does complete: a call with `SP <= 14`
ends with `SP + 1`, a return with `1 <= SP <= 15` ends with `SP - 1`, and a
return with `SP == 0` ends with `SP = 0xFFFF`; every other opcode that
completes leaves `SP` unchanged. -/
theorem c16_sp_in_range_between_guards (n : Nat) (s t : chip8) (hsp : s.sp ≤ 15)
    (hrun : cycles n s = .ok t)
    (hguard : ∀ k u, k < n → cycles k s = .ok u →
      returnsOnEmptyStack u = false ∧ callsOnFullStack u = false) :
    t.sp ≤ 15 ∧
    (∀ u : chip8, ∀ nnn, nnn < 4096 → u.opcode = 0x2000 + nnn → u.sp ≤ 14 →
      ∃ v, u.runOpcode = .ok v ∧ v.sp = u.sp + 1) ∧
    (∀ u : chip8, u.opcode = 0x00EE → 1 ≤ u.sp → u.sp ≤ 15 →
      ∃ v, u.runOpcode = .ok v ∧ v.sp = u.sp - 1) ∧
    (∀ u : chip8, u.opcode = 0x00EE → u.sp = 0 →
      ∃ v, u.runOpcode = .ok v ∧ v.sp = 0xFFFF) ∧
    (∀ u v : chip8, u.runOpcode = .ok v → u.opcode &&& 0xF000 ≠ 0x2000 →
      ¬ (u.opcode &&& 0xF000 = 0x0000 ∧ u.opcode &&& 0x000F = 0x000E) → v.sp = u.sp) ∧
    (∀ u v : chip8, returnsOnEmptyStack u = true → u.emulateCycle = .ok v → v.sp = 0xFFFF) := by
  refine ⟨?_, ?_, ?_, ?_, ?_, fun u v hg hc => emulateCycle_sp_wraps hc hg⟩
  · induction n generalizing t with
    | zero =>
      cases hrun
      exact hsp
    | succ k ih =>
      obtain ⟨u, hu, hstep⟩ := bind_eq_ok hrun
      have hu15 : u.sp ≤ 15 :=
        ih u hu (fun j w hj hw => hguard j w (by omega) hw)
      have hg := hguard k u (by omega) hu
      exact emulateCycle_sp hu15 hstep hg.1 hg.2
  · intro u nnn hn hop hu
    exact ⟨_, op2NNN_run u nnn hn hop (by omega), rfl⟩
  · intro u hop h1 h15
    refine ⟨_, op00EE_run u hop (by omega), ?_⟩
    show u16 ((u.sp : Int) - 1) = u.sp - 1
    unfold u16
    omega
  · intro u hop h0
    refine ⟨_, op00EE_run u hop (by omega), ?_⟩
    show u16 ((u.sp : Int) - 1) = 0xFFFF
    rw [h0]
    rfl
  · intro u v hr hcall hret
    rcases runOpcode_sp hr with ⟨h, _⟩ | ⟨h0, hE, _, _⟩ | h
    · exact absurd h hcall
    · exact absurd ⟨h0, hE⟩ hret
    · exact h

/-- C16 witness: scenario S4, a call followed by its return, two cycles from
`SP = 0`: the stack pointer goes 0, 1, 0. -/
theorem c16_sp_in_range_between_guards_witness :
    cycles 2 stateS4 = .ok stateS4Returned.updateTimers ∧
    stateS4Called.updateTimers.sp = 1 ∧
    stateS4Returned.updateTimers.sp ≤ 15 :=
  ⟨rfl, rfl,
   (c16_sp_in_range_between_guards 2 stateS4 stateS4Returned.updateTimers (by decide) rfl
    (by
      intro k u hk hu
      have hk' : k = 0 ∨ k = 1 := by omega
      rcases hk' with rfl | rfl
      · obtain rfl : stateS4 = u := Except.ok.inj hu
        exact ⟨rfl, rfl⟩
      · obtain rfl : stateS4Called.updateTimers = u := Except.ok.inj hu
        exact ⟨rfl, rfl⟩)).1⟩

/-! ## Which accesses stay in bounds -/

theorem runOpcode_of_dispatch {s u : chip8} (h : s.dispatch = .ok u) :
    s.runOpcode = .ok { u with PC := u16 ((u.PC : Int) + 2) } := by
  unfold chip8.runOpcode
  rw [h]
  rfl

theorem runOpcode_ok_iff (s : chip8) :
    (∃ t, s.runOpcode = .ok t) ↔ ∃ u, s.dispatch = .ok u := by
  constructor
  · rintro ⟨t, ht⟩
    obtain ⟨u, hu, _⟩ := runOpcode_eq_ok ht
    exact ⟨u, hu⟩
  · rintro ⟨u, hu⟩
    exact ⟨_, runOpcode_of_dispatch hu⟩

theorem getOpcode_ok_iff (s : chip8) :
    (∃ t, s.getOpcode = .ok t) ↔ s.PC ≤ 0xFFE := by
  constructor
  · rintro ⟨t, h⟩
    unfold chip8.getOpcode chip8.rdMem at h
    simp only [bind, Except.bind, pure, Except.pure] at h
    split_ifs at h with h1 h2
    omega
  · intro h
    have h1 : s.PC < 4096 := by omega
    have h2 : s.PC + 1 < 4096 := by omega
    refine ⟨{ s with opcode := u16 (((s.memory s.PC <<< 8) ||| s.memory (s.PC + 1) : Nat) : Int) },
      ?_⟩
    simp only [chip8.getOpcode, chip8.rdMem, h1, h2, if_true, bind, Except.bind, pure,
      Except.pure]

theorem dispatch_FX33 (s : chip8) (hF : s.opcode &&& 0xF000 = 0xF000)
    (h : s.opcode &&& 0x00FF = 0x0033) :
    s.dispatch = s.opFX33 (u16 (((s.opcode &&& 0x0F00) >>> 8 : Nat) : Int)) := by
  simp only [chip8.dispatch, chip8.opFxxx, hF, h]
  rfl

theorem wrMem_ok {s t : chip8} {i v : Nat} (h : s.wrMem i v = .ok t) :
    i < 4096 ∧ t.I = s.I := by
  unfold chip8.wrMem at h
  split_ifs at h with hi
  cases h
  exact ⟨hi, rfl⟩

theorem opFX33_ok_iff (s : chip8) (x : Nat) (hx : x < 16) (hop : s.opcode = 0xF033 + 256 * x) :
    (∃ t, s.runOpcode = .ok t) ↔ s.I + 2 ≤ 0xFFF := by
  constructor
  · rw [runOpcode_ok_iff]
    rintro ⟨u, h⟩
    have h1 : s.opcode &&& 0xF000 = 0xF000 := by rw [and_F000]; omega
    have h2 : s.opcode &&& 0x00FF = 0x33 := by rw [and_00FF]; omega
    rw [dispatch_FX33 s h1 h2] at h
    unfold chip8.opFX33 at h
    obtain ⟨_, _, h⟩ := bind_eq_ok h
    obtain ⟨a, ha, h⟩ := bind_eq_ok h
    obtain ⟨_, _, h⟩ := bind_eq_ok h
    obtain ⟨b, hb, h⟩ := bind_eq_ok h
    obtain ⟨_, _, h⟩ := bind_eq_ok h
    have ea := (wrMem_ok ha).2
    have eb := (wrMem_ok hb).2
    have hc := (wrMem_ok h).1
    omega
  · intro h
    exact ⟨_, opFX33_run s x hx hop (by omega)⟩

theorem dumpReg_ok {i : Nat} {u v : chip8} (h : chip8.dumpReg i u = .ok v) :
    v.I = u.I ∧ u.I + i < 4096 := by
  unfold chip8.dumpReg chip8.rdV chip8.wrMem at h
  simp only [bind, Except.bind, pure, Except.pure] at h
  split_ifs at h with h1 h2
  cases h
  exact ⟨rfl, h2⟩

theorem fillReg_ok {i : Nat} {u v : chip8} (h : chip8.fillReg i u = .ok v) :
    v.I = u.I ∧ u.I + i < 4096 := by
  unfold chip8.fillReg chip8.rdMem chip8.wrV at h
  simp only [bind, Except.bind, pure, Except.pure] at h
  split_ifs at h with h1 h2
  cases h
  exact ⟨rfl, h1⟩

/-- A completed loop of `n` iterations, each of which keeps `I` and needs
`I + i < 4096`, has `n = 0` or `I + n <= 4096`. -/
theorem loop_ok_bound (body : Nat → chip8 → Except Fault chip8)
    (hb : ∀ i u v, body i u = .ok v → v.I = u.I ∧ u.I + i < 4096)
    (n : Nat) (s t : chip8) (h : forLoop n body s = .ok t) :
    n = 0 ∨ s.I + n ≤ 4096 := by
  cases n with
  | zero => exact Or.inl rfl
  | succ k =>
    rw [forLoop_succ] at h
    obtain ⟨u, hu, hbody⟩ := bind_eq_ok h
    have hI : u.I = s.I :=
      forLoop_inv (fun w => w.I = s.I) body (fun i a b ha hab => (hb i a b hab).1.trans ha)
        k s u rfl hu
    have := (hb k u t hbody).2
    right
    omega

theorem dispatch_FX55 (s : chip8) (hF : s.opcode &&& 0xF000 = 0xF000)
    (h : s.opcode &&& 0x00FF = 0x0055) : s.dispatch = s.opFX55 := by
  simp only [chip8.dispatch, chip8.opFxxx, hF, h]
  rfl

theorem dispatch_FX65 (s : chip8) (hF : s.opcode &&& 0xF000 = 0xF000)
    (h : s.opcode &&& 0x00FF = 0x0065) : s.dispatch = s.opFX65 := by
  simp only [chip8.dispatch, chip8.opFxxx, hF, h]
  rfl

theorem opFX55_ok_iff (s : chip8) (x : Nat) (hx : x < 16) (hop : s.opcode = 0xF055 + 256 * x) :
    (∃ t, s.runOpcode = .ok t) ↔ x = 0 ∨ s.I + x ≤ 0x1000 := by
  have h1 : s.opcode &&& 0xF000 = 0xF000 := by rw [and_F000]; omega
  have h2 : s.opcode &&& 0x00FF = 0x55 := by rw [and_00FF]; omega
  have h3 : (s.opcode &&& 0x0F00) >>> 8 = x := by rw [nibble_x]; omega
  rw [runOpcode_ok_iff, dispatch_FX55 s h1 h2]
  unfold chip8.opFX55
  rw [h3]
  constructor
  · rintro ⟨u, h⟩
    exact loop_ok_bound _ (fun i a b hab => dumpReg_ok hab) x s u h
  · rintro (rfl | h)
    · exact ⟨s, forLoop_zero _ _⟩
    · exact ⟨_, dump_loop s x (by omega) h⟩

theorem opFX65_ok_iff (s : chip8) (x : Nat) (hx : x < 16) (hop : s.opcode = 0xF065 + 256 * x) :
    (∃ t, s.runOpcode = .ok t) ↔ x = 0 ∨ s.I + x ≤ 0x1000 := by
  have h1 : s.opcode &&& 0xF000 = 0xF000 := by rw [and_F000]; omega
  have h2 : s.opcode &&& 0x00FF = 0x65 := by rw [and_00FF]; omega
  have h3 : (s.opcode &&& 0x0F00) >>> 8 = x := by rw [nibble_x]; omega
  rw [runOpcode_ok_iff, dispatch_FX65 s h1 h2]
  unfold chip8.opFX65
  rw [h3]
  constructor
  · rintro ⟨u, h⟩
    exact loop_ok_bound _ (fun i a b hab => fillReg_ok hab) x s u h
  · rintro (rfl | h)
    · exact ⟨s, forLoop_zero _ _⟩
    · exact ⟨_, fill_loop s x (by omega) h⟩

theorem opEX9E_ok_iff (s : chip8) (x : Nat) (hx : x < 16) (hop : s.opcode = 0xE09E + 256 * x) :
    (∃ t, s.runOpcode = .ok t) ↔ s.V x < 16 := by
  rw [runOpcode_ok_iff, (dispatch_Exxx s x 9 hx (by decide)).1 (by omega)]
  unfold chip8.opEX9E chip8.rdV chip8.rdKey
  simp only [hx, if_true, bind, Except.bind, pure, Except.pure]
  clear hop
  by_cases g : s.V x < 16
  · simp only [g, if_true, iff_true]
    split_ifs <;> exact ⟨_, rfl⟩
  · simp only [g, if_false, iff_false]
    rintro ⟨u, h⟩
    cases h

theorem opEXA1_ok_iff (s : chip8) (x : Nat) (hx : x < 16) (hop : s.opcode = 0xE0A1 + 256 * x) :
    (∃ t, s.runOpcode = .ok t) ↔ s.V x < 16 := by
  rw [runOpcode_ok_iff, (dispatch_Exxx s x 10 hx (by decide)).2 (by omega)]
  unfold chip8.opEXA1 chip8.rdV chip8.rdKey
  simp only [hx, if_true, bind, Except.bind, pure, Except.pure]
  clear hop
  by_cases g : s.V x < 16
  · simp only [g, if_true, iff_true]
    split_ifs <;> exact ⟨_, rfl⟩
  · simp only [g, if_false, iff_false]
    rintro ⟨u, h⟩
    cases h

/-- C17 as stated fails on the code, which masks no index: the fetch at
`PC = 0xFFF` reads `memory[4096]`; `0xE09E` with `V[0] = 16` reads `key[16]`;
`0xF033` with `I = 0xFFE` stores into `memory[4096]`; `0xF255` with `I = 0xFFF`
stores into `memory[4096]`. -/
theorem c17_unmasked_indices_counterexample :
    stateFetchEdge.getOpcode = .error (.readOutOfBounds .memory 4096) ∧
    stateKey16.runOpcode = .error (.readOutOfBounds .key 16) ∧
    stateBcdEdge.runOpcode = .error (.writeOutOfBounds .memory 4096 0) ∧
    stateDumpEdge.runOpcode = .error (.writeOutOfBounds .memory 4096 0) := by
  exact ⟨rfl, rfl, rfl, rfl⟩

/-- C17, amended: the code masks no index.  The register indices `x` and `y`
decoded from the opcode are always below 16.  The other indices stay in bounds
exactly under these conditions: the fetch when `PC <= 0xFFE`; `FX33` when
`I + 2 <= 0xFFF`; `FX55` and `FX65` when `x = 0` or `I + x <= 0x1000` (the
loops touch `memory[I..I+x)`); `EX9E` and `EXA1` when `V[x] < 16`. -/
theorem c17_bounds_without_masking (s : chip8) (x : Nat) (hx : x < 16) :
    u16 (((s.opcode &&& 0x0F00) >>> 8 : Nat) : Int) < 16 ∧
    u16 (((s.opcode &&& 0x00F0) >>> 4 : Nat) : Int) < 16 ∧
    ((∃ t, s.getOpcode = .ok t) ↔ s.PC ≤ 0xFFE) ∧
    (s.opcode = 0xF033 + 256 * x → ((∃ t, s.runOpcode = .ok t) ↔ s.I + 2 ≤ 0xFFF)) ∧
    (s.opcode = 0xF055 + 256 * x →
      ((∃ t, s.runOpcode = .ok t) ↔ x = 0 ∨ s.I + x ≤ 0x1000)) ∧
    (s.opcode = 0xF065 + 256 * x →
      ((∃ t, s.runOpcode = .ok t) ↔ x = 0 ∨ s.I + x ≤ 0x1000)) ∧
    (s.opcode = 0xE09E + 256 * x → ((∃ t, s.runOpcode = .ok t) ↔ s.V x < 16)) ∧
    (s.opcode = 0xE0A1 + 256 * x → ((∃ t, s.runOpcode = .ok t) ↔ s.V x < 16)) := by
  refine ⟨?_, ?_, getOpcode_ok_iff s, opFX33_ok_iff s x hx, opFX55_ok_iff s x hx,
    opFX65_ok_iff s x hx, opEX9E_ok_iff s x hx, opEXA1_ok_iff s x hx⟩
  · rw [decode_x]; omega
  · rw [decode_y]; omega

/-- C17 witness: the fetch of `stateFetch` (`PC = 0x200`) and the `0xF233` of
`stateBcd` (`I = 0x300`) complete. -/
theorem c17_bounds_without_masking_witness :
    (∃ t, stateFetch.getOpcode = .ok t) ∧ (∃ t, stateBcd.runOpcode = .ok t) :=
  ⟨(c17_bounds_without_masking stateFetch 0 (by decide)).2.2.1.2 (by decide),
   ((c17_bounds_without_masking stateBcd 2 (by decide)).2.2.2.1 rfl).2 (by decide)⟩

/-! ## FX0A with no key pressed -/

/-- The loop of case `FX0A` over the first `n` keys, none of them pressed,
subtracts 2 from `PC` `n` times. -/
theorem keyScan_loop_idle (s : chip8) (x n : Nat) (hn : n ≤ 16) (hpc : s.PC < 65536)
    (hk : ∀ i, i < 16 → s.key i ≠ 1) :
    forLoop n (fun i s => chip8.keyScan x i s) s =
      .ok { s with PC := u16 ((s.PC : Int) - 2 * n) } := by
  induction n with
  | zero =>
    rw [forLoop_zero]
    have h0 : u16 ((s.PC : Int) - 2 * ((0 : Nat) : Int)) = s.PC := by unfold u16; omega
    rw [h0]
  | succ k ih =>
    rw [forLoop_succ, ih (by omega)]
    have hlt : k < 16 := by omega
    have hkk := hk k hlt
    simp only [chip8.keyScan, chip8.rdKey, hlt, hkk, if_true, if_false, bind, Except.bind, pure,
      Except.pure]
    congr 2
    unfold u16
    push_cast
    omega

/-- The step `FX0A` with no key pressed moves `PC` back by 30: sixteen times
`PC -= 2` in the loop, then `PC += 2`. -/
theorem opFX0A_idle (s : chip8) (x : Nat) (hx : x < 16) (hop : s.opcode = 0xF00A + 256 * x)
    (hpc : s.PC < 65536) (hk : ∀ i, i < 16 → s.key i ≠ 1) :
    s.runOpcode = .ok { s with PC := u16 ((s.PC : Int) - 30) } := by
  have h1 : s.opcode &&& 0xF000 = 0xF000 := by rw [and_F000]; omega
  have h2 : s.opcode &&& 0x00FF = 0x0A := by rw [and_00FF]; omega
  have hd : s.dispatch = s.opFX0A (u16 (((s.opcode &&& 0x0F00) >>> 8 : Nat) : Int)) := by
    simp only [chip8.dispatch, chip8.opFxxx, h1, h2]
    rfl
  have hl := keyScan_loop_idle s (u16 (((s.opcode &&& 0x0F00) >>> 8 : Nat) : Int)) 16
    (by omega) hpc hk
  rw [runOpcode_of_dispatch (hd.trans hl)]
  congr 2
  show u16 ((u16 ((s.PC : Int) - 2 * ((16 : Nat) : Int)) : Int) + 2) = u16 ((s.PC : Int) - 30)
  unfold u16
  push_cast
  omega
